import Mathlib

/-!
Verification of the `rcrd` terminal-recording renderer: a shallow embedding
of the virtual terminal (`terminal/virtual_term.rs`), the glyph table and
bitmap scaling (`export/bitmap.rs`) and the GIF timeline assembly
(`export/gif.rs`), together with theorems about the embedded definitions.

Machine integers (`u8`, `u16`, `u32`, `u128`, `usize`) are modelled as `Nat`
with explicit guards where the source guards; the `f32` arithmetic of the
delay computation is modelled by `ℚ`, which is exact for the integer-valued
operands appearing in every theorem below (all well within the 2^24 range
where `f32` represents integers exactly).
-/

namespace Rcrd

set_option maxRecDepth 100000

/-- A recorded frame (`RecordedFrame` in `recording/mod.rs`): a raw content
chunk and a timestamp in milliseconds since the start of the recording
(`u128` in the source, modelled as `Nat`). -/
structure RecordedFrame where
  content : String
  timestamp : Nat
  deriving DecidableEq, Repr

/-- Rust's `x.clamp(lo, hi)` on integers: `min (max x lo) hi`. -/
def rustClamp (x lo hi : Nat) : Nat := min (max x lo) hi

/-- Rust's saturating `as u16` cast applied to a finite `f32` value (the
`f32` itself modelled by `ℚ`): truncation toward zero, saturating at `0`
below and at `65535` above.  For nonnegative arguments truncation toward
zero is the floor; for negative arguments both truncation and flooring
saturate to `0`, so `Int.toNat ∘ Rat.floor` is exact. -/
def rustCastU16 (x : ℚ) : Nat := min (Int.toNat ⌊x⌋) 65535

/-- `CharBitmap` (`export/bitmap.rs`): a glyph bitmap as a list of boolean
pixel rows. -/
abbrev CharBitmap := List (List Bool)

/-- The inner row construction of `scale_bitmap`: each source pixel of a row
becomes `scale` adjacent copies (`scaled_rows[sy][x * scale + sx] = pixel`). -/
def scaleRow (row : List Bool) (scale : Nat) : List Bool :=
  row.flatMap fun pixel => List.replicate scale pixel

/-- `scale_bitmap` (`export/bitmap.rs` lines 8-30): a factor of at most 1
returns a clone of the bitmap; otherwise every source row contributes
`scale` identical rows, each the horizontally scaled row. -/
def scale_bitmap (bitmap : CharBitmap) (scale : Nat) : CharBitmap :=
  if scale ≤ 1 then bitmap
  else bitmap.flatMap fun row => List.replicate scale (scaleRow row scale)

/-- The pixel of a bitmap at row `y`, column `x` (`false` outside the
bitmap). -/
def pixelAt (b : CharBitmap) (y x : Nat) : Bool := (b.getD y []).getD x false

/-- One step of the delay computation in the export loop
(`export_to_gif_from_path`, `gif.rs` lines 127-136): `last` is
`last_timestamp` and `ts` the current frame's timestamp.  The delay starts
at the default 10 centiseconds; only when `last_timestamp > 0` does the loop
take `frame.timestamp - last_timestamp` — an unguarded `u128` subtraction
whose underflow is a panic (modelled as `none`) — divide by the speed factor
and by `10.0` in `f32`, cast with `as u16` and clamp to `[2, 500]`. -/
def delayFor (speed : ℚ) (last ts : Nat) : Option Nat :=
  if 0 < last then
    if ts < last then none
    else some (rustClamp (rustCastU16 (((ts - last : Nat) : ℚ) / speed / 10)) 2 500)
  else some 10

/-- The delays emitted for a list of frames by the export loop of
`export_to_gif_from_path`, threading `last_timestamp` (initially `0`)
exactly as the source does; `none` when the loop panics on a timestamp
going backwards. -/
def frameDelays (speed : ℚ) : Nat → List RecordedFrame → Option (List Nat)
  | _, [] => some []
  | last, f :: rest => do
    let d ← delayFor speed last f.timestamp
    let ds ← frameDelays speed f.timestamp rest
    pure (d :: ds)

/-- `enhance_recording` (`gif.rs` lines 179-211): prepend an intro frame at
timestamp 0 and a colored-prompt frame at timestamp 1000, shift the original
timestamps by 1500, and append an outro frame one second after the last
frame. -/
def enhance_recording (frames : List RecordedFrame) : List RecordedFrame :=
  let enhanced : List RecordedFrame :=
    ⟨"\x1B[H\x1B[2J\x1B[1;32m# Terminal Recording\x1B[0m\n\n", 0⟩ ::
    ⟨"\x1B[1;34m$ \x1B[0m", 1000⟩ ::
    frames.map (fun f => ⟨f.content, f.timestamp + 1500⟩)
  let last_timestamp := ((enhanced.getLast?).map RecordedFrame.timestamp).getD 0
  enhanced ++ [⟨"\n\n\x1B[1;32m# End of Recording\x1B[0m\n", last_timestamp + 1000⟩]

/-- The timing skeleton of `export_to_gif_from_path` (`gif.rs` lines
71-177): after loading, an empty frame list is a hard `InvalidData` error,
returned before any frame is encoded; otherwise the recording is enhanced
and the export loop computes the delay emitted with each frame.  The outer
`none` models a panic inside the loop. -/
def export_frames (speed : ℚ) (frames : List RecordedFrame) :
    Option (Except String (List Nat)) :=
  if frames.isEmpty then some (Except.error "No frames found in recording file")
  else (frameDelays speed 0 (enhance_recording frames)).map Except.ok


/-- An RGB8 color triple (`TermColor` in `terminal/colors.rs`; `to_rgb` is
the identity on the three channels, so image pixels below are `TermColor`
values directly). -/
structure TermColor where
  r : Nat
  g : Nat
  b : Nat
  deriving DecidableEq, Repr

/-- A terminal cell (`TermCell` in `terminal/virtual_term.rs`): one
character with its style. -/
structure TermCell where
  character : Char
  fg_color : TermColor
  bg_color : TermColor
  bold : Bool
  italic : Bool
  underline : Bool
  deriving DecidableEq, Repr

/-- `TermCell::default()`: a space with the hard-coded colors 240/240/240 on
30/30/30 and no styling. -/
def TermCell.default : TermCell :=
  ⟨' ', ⟨240, 240, 240⟩, ⟨30, 30, 30⟩, false, false, false⟩

/-- The virtual terminal state (`VirtualTerminal` in
`terminal/virtual_term.rs`).  The source also carries a `char_bitmaps`
field, set once in `new` to `create_character_bitmaps()` and never mutated;
the rasterizer below reads that constant table directly, so the field is
omitted from the state. -/
structure VirtualTerminal where
  width : Nat
  height : Nat
  cells : List (List TermCell)
  cursor_x : Nat
  cursor_y : Nat
  current_fg : TermColor
  current_bg : TermColor
  bold : Bool
  italic : Bool
  underline : Bool
  dark_theme : Bool
  deriving DecidableEq, Repr

/-- The theme default foreground of `VirtualTerminal::new` and
`reset_text_attributes`. -/
def defaultFg (dark_theme : Bool) : TermColor :=
  if dark_theme then ⟨240, 240, 240⟩ else ⟨30, 30, 30⟩

/-- The theme default background of `VirtualTerminal::new` and
`reset_text_attributes`. -/
def defaultBg (dark_theme : Bool) : TermColor :=
  if dark_theme then ⟨30, 30, 30⟩ else ⟨245, 245, 245⟩

/-- `VirtualTerminal::new`: a `height × width` grid of default cells in the
theme colors, cursor at the origin, no active styling. -/
def VirtualTerminal.new (width height : Nat) (dark_theme : Bool) : VirtualTerminal :=
  let default_fg := defaultFg dark_theme
  let default_bg := defaultBg dark_theme
  { width := width
    height := height
    cells := List.replicate height (List.replicate width
      { TermCell.default with fg_color := default_fg, bg_color := default_bg })
    cursor_x := 0
    cursor_y := 0
    current_fg := default_fg
    current_bg := default_bg
    bold := false
    italic := false
    underline := false
    dark_theme := dark_theme }

/-- The cell stored at row `y`, column `x` (the source indexes
`self.cells[y][x]`, always in bounds where it does so; out-of-range access
defaults to `TermCell.default` here). -/
def cellAt (t : VirtualTerminal) (y x : Nat) : TermCell :=
  (t.cells.getD y []).getD x TermCell.default

/-- The cell value written by `clear_cell`: a space in the current active
colors with all three style flags cleared. -/
def clearedCell (t : VirtualTerminal) : TermCell :=
  ⟨' ', t.current_fg, t.current_bg, false, false, false⟩

/-- `clear_cell` (`virtual_term.rs` lines 591-600): bounds-guarded reset of
one cell to a space in the *current* foreground/background colors with all
three style flags cleared. -/
def clear_cell (t : VirtualTerminal) (y x : Nat) : VirtualTerminal :=
  if y < t.height ∧ x < t.width then
    { t with cells := t.cells.set y ((t.cells.getD y []).set x
        ⟨' ', t.current_fg, t.current_bg, false, false, false⟩) }
  else t

/-- `scroll_up` (`virtual_term.rs` lines 602-612): the loop
`cells[y - 1] = cells[y].clone()` for `y` in `1..height` (each read sees the
original row, since only smaller indices have been written), then the bottom
line is cleared cell by cell. -/
def scroll_up (t : VirtualTerminal) : VirtualTerminal :=
  let shifted := { t with cells :=
    (List.range' 1 (t.height - 1)).foldl (fun cs y => cs.set (y - 1) (cs.getD y [])) t.cells }
  (List.range t.width).foldl (fun s x => clear_cell s (t.height - 1) x) shifted

/-- The `'\n'` arm of `process_content`: column 0, row advanced modulo
`height`, scrolling when the row wrapped to 0. -/
def newline (t : VirtualTerminal) : VirtualTerminal :=
  let t1 := { t with cursor_x := 0, cursor_y := (t.cursor_y + 1) % t.height }
  if t1.cursor_y = 0 then { scroll_up t1 with cursor_y := t1.height - 1 } else t1

/-- The `'\t'` arm of `process_content`: `(cursor_x + 8) & !7` rounds up to
the next multiple of 8 (written here as division and multiplication by 8,
which clears the same low three bits); at or past the right edge the cursor
wraps to column 0 of the next row modulo `height`, with no scroll. -/
def tab (t : VirtualTerminal) : VirtualTerminal :=
  let x := (t.cursor_x + 8) / 8 * 8
  if t.width ≤ x then { t with cursor_x := 0, cursor_y := (t.cursor_y + 1) % t.height }
  else { t with cursor_x := x }

/-- The `'\x08'` arm of `process_content`: move left, stopping at column 0. -/
def backspace (t : VirtualTerminal) : VirtualTerminal :=
  if 0 < t.cursor_x then { t with cursor_x := t.cursor_x - 1 } else t

/-- The default arm of `process_content`: write the character with the
active style at the cursor when the cursor is in bounds, advance, and wrap
with a scroll when the wrap reaches row 0. -/
def writeChar (t : VirtualTerminal) (c : Char) : VirtualTerminal :=
  if t.cursor_x < t.width ∧ t.cursor_y < t.height then
    let t1 := { t with cells := t.cells.set t.cursor_y ((t.cells.getD t.cursor_y []).set t.cursor_x
      ⟨c, t.current_fg, t.current_bg, t.bold, t.italic, t.underline⟩) }
    if t.width ≤ t1.cursor_x + 1 then
      let t2 := { t1 with cursor_x := 0, cursor_y := (t1.cursor_y + 1) % t1.height }
      if t2.cursor_y = 0 then { scroll_up t2 with cursor_y := t2.height - 1 } else t2
    else { t1 with cursor_x := t1.cursor_x + 1 }
  else t

/-- ASCII digit accumulation for Rust's unsigned `from_str`: `none` on any
non-digit character. -/
def parseDigits : List Char → Nat → Option Nat
  | [], acc => some acc
  | c :: rest, acc => if c.isDigit then parseDigits rest (acc * 10 + (c.toNat - 48)) else none

/-- Rust's `str::parse` for an unsigned integer type with maximum value
`bound`: an optional leading `+`, then one or more ASCII digits; overflow is
an error (checking the final value is equivalent, since digits only grow the
accumulator). -/
def rustParseNat (bound : Nat) (s : String) : Option Nat :=
  let l := match s.toList with
    | '+' :: rest => rest
    | l => l
  match l with
  | [] => none
  | _ :: _ =>
    match parseDigits l 0 with
    | some v => if v ≤ bound then some v else none
    | none => none

/-- `str::parse::<u8>`. -/
def parseU8 (s : String) : Option Nat := rustParseNat 255 s

/-- `str::parse::<usize>` on the 64-bit targets the crate builds for. -/
def parseUsize (s : String) : Option Nat := rustParseNat (2 ^ 64 - 1) s

/-- The dim 8-color palette of `set_color` (`virtual_term.rs` lines
383-423); the wildcard arm keeps the current color, passed in as `dflt`. -/
def basicColor (i : Nat) (dflt : TermColor) : TermColor :=
  match i with
  | 0 => ⟨0, 0, 0⟩
  | 1 => ⟨170, 0, 0⟩
  | 2 => ⟨0, 170, 0⟩
  | 3 => ⟨170, 85, 0⟩
  | 4 => ⟨0, 0, 170⟩
  | 5 => ⟨170, 0, 170⟩
  | 6 => ⟨0, 170, 170⟩
  | 7 => ⟨170, 170, 170⟩
  | _ => dflt

/-- The bright 8-color palette of `set_bright_color` (`virtual_term.rs`
lines 425-481). -/
def brightColor (i : Nat) (dflt : TermColor) : TermColor :=
  match i with
  | 0 => ⟨85, 85, 85⟩
  | 1 => ⟨255, 85, 85⟩
  | 2 => ⟨85, 255, 85⟩
  | 3 => ⟨255, 255, 85⟩
  | 4 => ⟨85, 85, 255⟩
  | 5 => ⟨255, 85, 255⟩
  | 6 => ⟨85, 255, 255⟩
  | 7 => ⟨255, 255, 255⟩
  | _ => dflt

/-- `set_color`. -/
def set_color (t : VirtualTerminal) (color_index : Nat) (is_foreground : Bool) : VirtualTerminal :=
  let color := basicColor color_index (if is_foreground then t.current_fg else t.current_bg)
  if is_foreground then { t with current_fg := color } else { t with current_bg := color }

/-- `set_bright_color`. -/
def set_bright_color (t : VirtualTerminal) (color_index : Nat) (is_foreground : Bool) :
    VirtualTerminal :=
  let color := brightColor color_index (if is_foreground then t.current_fg else t.current_bg)
  if is_foreground then { t with current_fg := color } else { t with current_bg := color }

/-- One channel of the 6×6×6 cube of `set_256_color`:
`if v == 0 { 0 } else { v * 40 + 55 }`. -/
def cubeChannel (v : Nat) : Nat := if v = 0 then 0 else v * 40 + 55

/-- `set_256_color` (`virtual_term.rs` lines 483-589): the 16 named colors,
the 6×6×6 cube for indices 16-231, and the 24-step grayscale ramp above.
The two `unreachable!()` wildcard arms of the source are modelled by the
(never taken) default arms of the palette tables. -/
def set_256_color (t : VirtualTerminal) (color_index : Nat) (is_foreground : Bool) :
    VirtualTerminal :=
  let color :=
    if color_index < 16 then
      let base_index := color_index % 8
      if 8 ≤ color_index then brightColor base_index ⟨0, 0, 0⟩
      else basicColor base_index ⟨0, 0, 0⟩
    else if color_index < 232 then
      let index := color_index - 16
      ⟨cubeChannel ((index / 36) % 6), cubeChannel ((index / 6) % 6), cubeChannel (index % 6)⟩
    else
      let value := (color_index - 232) * 10 + 8
      ⟨value, value, value⟩
  if is_foreground then { t with current_fg := color } else { t with current_bg := color }

/-- `reset_text_attributes`: clear the three style flags and restore the
theme default colors. -/
def reset_text_attributes (t : VirtualTerminal) : VirtualTerminal :=
  { t with
      bold := false
      italic := false
      underline := false
      current_fg := defaultFg t.dark_theme
      current_bg := defaultBg t.dark_theme }

/-- The `38`/`48` arm of the SGR parameter loop (`virtual_term.rs` lines
207-240): `;5;N` selects a 256-color palette entry, `;2;R;G;B` a truecolor
value.  The returned index includes both the sub-parameter skips (`i += 2`
or `i += 4`) and the arm's own trailing `i += 1`; the loop adds one more. -/
def extendedColor (params : List String) (i : Nat) (t : VirtualTerminal)
    (is_foreground : Bool) : VirtualTerminal × Nat :=
  let step :=
    if i + 1 < params.length then
      let mode := (parseU8 (params.getD (i + 1) "")).getD 0
      if mode = 5 ∧ i + 2 < params.length then
        (set_256_color t ((parseU8 (params.getD (i + 2) "")).getD 0) is_foreground, i + 2)
      else if mode = 2 ∧ i + 4 < params.length then
        let r := (parseU8 (params.getD (i + 2) "")).getD 0
        let g := (parseU8 (params.getD (i + 3) "")).getD 0
        let b := (parseU8 (params.getD (i + 4) "")).getD 0
        (if is_foreground then { t with current_fg := ⟨r, g, b⟩ }
         else { t with current_bg := ⟨r, g, b⟩ }, i + 4)
      else (t, i)
    else (t, i)
  (step.1, step.2 + 1)

/-- One iteration body of the SGR parameter loop in the `'m'` arm of
`process_csi_sequence` (`virtual_term.rs` lines 194-246): dispatch on
`params[i].parse::<u8>().unwrap_or(0)` and return the state together with
the index as it stands before the loop's trailing `i += 1`. -/
def sgrStep (params : List String) (i : Nat) (t : VirtualTerminal) : VirtualTerminal × Nat :=
  let param := (parseU8 (params.getD i "")).getD 0
  if param = 0 then (reset_text_attributes t, i)
  else if param = 1 then ({ t with bold := true }, i)
  else if param = 3 then ({ t with italic := true }, i)
  else if param = 4 then ({ t with underline := true }, i)
  else if 30 ≤ param ∧ param ≤ 37 then (set_color t (param - 30) true, i)
  else if 40 ≤ param ∧ param ≤ 47 then (set_color t (param - 40) false, i)
  else if 90 ≤ param ∧ param ≤ 97 then (set_bright_color t (param - 90) true, i)
  else if 100 ≤ param ∧ param ≤ 107 then (set_bright_color t (param - 100) false, i)
  else if param = 38 then extendedColor params i t true
  else if param = 48 then extendedColor params i t false
  else (t, i)

/-- The SGR parameter loop `while i < params.len()`.  Every iteration
advances `i` by at least one, so `params.length` iterations always suffice;
the first argument below is that iteration budget, instantiated with
`params.length` at the call site, which makes the recursion structural
without changing the computed result. -/
def sgrLoop (params : List String) : Nat → Nat → VirtualTerminal → VirtualTerminal
  | 0, _, t => t
  | fuel + 1, i, t =>
    if i < params.length then
      let step := sgrStep params i t
      sgrLoop params fuel (step.2 + 1) step.1
    else t

/-- The `'J'` (erase in display) arm of `process_csi_sequence`
(`virtual_term.rs` lines 289-324). -/
def eraseJ (t : VirtualTerminal) (mode : Nat) : VirtualTerminal :=
  if mode = 0 then
    let t1 := (List.range' t.cursor_x (t.width - t.cursor_x)).foldl
      (fun s x => clear_cell s t.cursor_y x) t
    (List.range' (t.cursor_y + 1) (t.height - (t.cursor_y + 1))).foldl
      (fun s y => (List.range t.width).foldl (fun s2 x => clear_cell s2 y x) s) t1
  else if mode = 1 then
    let t1 := (List.range t.cursor_y).foldl
      (fun s y => (List.range t.width).foldl (fun s2 x => clear_cell s2 y x) s) t
    (List.range (t.cursor_x + 1)).foldl (fun s x => clear_cell s t.cursor_y x) t1
  else if mode = 2 ∨ mode = 3 then
    (List.range t.height).foldl
      (fun s y => (List.range t.width).foldl (fun s2 x => clear_cell s2 y x) s) t
  else t

/-- The `'K'` (erase in line) arm of `process_csi_sequence`
(`virtual_term.rs` lines 325-346). -/
def eraseK (t : VirtualTerminal) (mode : Nat) : VirtualTerminal :=
  if mode = 0 then
    (List.range' t.cursor_x (t.width - t.cursor_x)).foldl (fun s x => clear_cell s t.cursor_y x) t
  else if mode = 1 then
    (List.range (t.cursor_x + 1)).foldl (fun s x => clear_cell s t.cursor_y x) t
  else if mode = 2 then
    (List.range t.width).foldl (fun s x => clear_cell s t.cursor_y x) t
  else t

/-- `sequence.split(';')` on the collected parameter string: splitting on
every `';'`, keeping empty pieces, never returning an empty list. -/
def splitParamsAux : List Char → String → List String
  | [], cur => [cur]
  | c :: rest, cur =>
    if c = ';' then cur :: splitParamsAux rest ""
    else splitParamsAux rest (cur.push c)

/-- `sequence.split(';').collect::<Vec<_>>()`. -/
def splitParams (s : String) : List String := splitParamsAux s.toList ""

/-- `process_csi_sequence` (`virtual_term.rs` lines 186-351): dispatch on
the command character; unknown commands are ignored. -/
def process_csi_sequence (t : VirtualTerminal) (sequence : String) (command : Char) :
    VirtualTerminal :=
  if command = 'm' then
    let params := splitParams sequence
    match params with
    | [] => reset_text_attributes t
    | p0 :: _ =>
      if p0 = "" ∨ p0 = "0" then reset_text_attributes t
      else sgrLoop params params.length 0 t
  else if command = 'A' then
    let count := (parseUsize sequence).getD 1
    if count ≤ t.cursor_y then { t with cursor_y := t.cursor_y - count }
    else { t with cursor_y := 0 }
  else if command = 'B' then
    let count := (parseUsize sequence).getD 1
    { t with cursor_y := min (t.cursor_y + count) (t.height - 1) }
  else if command = 'C' then
    let count := (parseUsize sequence).getD 1
    { t with cursor_x := min (t.cursor_x + count) (t.width - 1) }
  else if command = 'D' then
    let count := (parseUsize sequence).getD 1
    if count ≤ t.cursor_x then { t with cursor_x := t.cursor_x - count }
    else { t with cursor_x := 0 }
  else if command = 'H' ∨ command = 'f' then
    let parts := splitParams sequence
    let row := match parts with
      | [] => 0
      | p0 :: _ => if p0 ≠ "" then (parseUsize p0).getD 1 - 1 else 0
    let col := match parts with
      | _ :: p1 :: _ => if p1 ≠ "" then (parseUsize p1).getD 1 - 1 else 0
      | _ => 0
    { t with cursor_y := min row (t.height - 1), cursor_x := min col (t.width - 1) }
  else if command = 'J' then eraseJ t ((parseU8 sequence).getD 0)
  else if command = 'K' then eraseK t ((parseU8 sequence).getD 0)
  else t

/-- The character loop of `process_content` (`virtual_term.rs` lines
115-184) as a state machine over the remaining characters: a `some seq`
state is the inner CSI-collecting `while` loop with `seq` the parameters
collected so far (an ASCII alphabetic character dispatches the sequence and
returns to the ground state; end of input drops the partial sequence), and
the ground state `none` handles `ESC` (consuming one following character,
entering the collecting state only after `ESC [`), the control characters,
and ordinary writes. -/
def processChars : VirtualTerminal → Option String → List Char → VirtualTerminal
  | t, _, [] => t
  | t, st, c :: rest =>
    match st with
    | some seq =>
      if c.isAlpha then processChars (process_csi_sequence t seq c) none rest
      else processChars t (some (seq.push c)) rest
    | none =>
      if c = '\x1B' then
        match rest with
        | [] => t
        | c2 :: rest2 =>
          if c2 = '[' then processChars t (some "") rest2 else processChars t none rest2
      else if c = '\n' then processChars (newline t) none rest
      else if c = '\r' then processChars { t with cursor_x := 0 } none rest
      else if c = '\t' then processChars (tab t) none rest
      else if c = '\x08' then processChars (backspace t) none rest
      else processChars (writeChar t c) none rest

/-- `process_content`: run the character loop from the ground state. -/
def process_content (t : VirtualTerminal) (content : List Char) : VirtualTerminal :=
  processChars t none content

/-- The grid well-formedness invariant: positive dimensions, cursor strictly
inside the grid, and a `height × width` cell matrix. -/
def WF (t : VirtualTerminal) : Prop :=
  0 < t.width ∧ 0 < t.height ∧ t.cursor_x < t.width ∧ t.cursor_y < t.height ∧
  t.cells.length = t.height ∧ ∀ row ∈ t.cells, row.length = t.width

instance (t : VirtualTerminal) : Decidable (WF t) := by
  unfold WF
  infer_instance

/-- `create_character_bitmaps` (`export/bitmap.rs` lines 33-1291): the full
hand-authored glyph table, one 7-row bitmap per printable ASCII character
plus a bordered-box glyph stored under the Unicode replacement character.
Keys that the surrounding rules of this file cannot spell as character
literals are written `Char.ofNat` with the character named in a comment.
The source stores the table in a `HashMap`; all keys are distinct, so an
association list with `List.lookup` is an exact model of `HashMap::get`. -/
def create_character_bitmaps : List (Char × CharBitmap) := [
  (' ',
   [[false, false, false],
    [false, false, false],
    [false, false, false],
    [false, false, false],
    [false, false, false],
    [false, false, false],
    [false, false, false]]),
  ('!',
   [[true],
    [true],
    [true],
    [true],
    [true],
    [false],
    [true]]),
  (Char.ofNat 34, -- double quote
   [[true, false, true],
    [true, false, true],
    [true, false, true],
    [false, false, false],
    [false, false, false],
    [false, false, false],
    [false, false, false]]),
  ('#',
   [[false, true, false, true, false],
    [false, true, false, true, false],
    [true, true, true, true, true],
    [false, true, false, true, false],
    [true, true, true, true, true],
    [false, true, false, true, false],
    [false, true, false, true, false]]),
  ('$',
   [[false, true, true, true, false],
    [true, false, true, false, false],
    [true, false, true, false, false],
    [false, true, true, true, false],
    [false, false, true, false, true],
    [false, false, true, false, true],
    [false, true, true, true, false]]),
  ('%',
   [[true, true, false, false, false],
    [true, true, false, false, true],
    [false, false, false, true, false],
    [false, false, true, false, false],
    [false, true, false, false, false],
    [true, false, false, true, true],
    [false, false, false, true, true]]),
  ('&',
   [[false, true, true, false, false],
    [true, false, false, true, false],
    [true, false, true, false, false],
    [false, true, false, false, false],
    [true, false, true, false, true],
    [true, false, false, true, false],
    [false, true, true, false, true]]),
  (Char.ofNat 39, -- apostrophe
   [[true],
    [true],
    [true],
    [false],
    [false],
    [false],
    [false]]),
  ('(',
   [[false, true],
    [true, false],
    [true, false],
    [true, false],
    [true, false],
    [true, false],
    [false, true]]),
  (')',
   [[true, false],
    [false, true],
    [false, true],
    [false, true],
    [false, true],
    [false, true],
    [true, false]]),
  ('*',
   [[false, false, false],
    [true, false, true],
    [false, true, false],
    [true, true, true],
    [false, true, false],
    [true, false, true],
    [false, false, false]]),
  ('+',
   [[false, false, false],
    [false, true, false],
    [false, true, false],
    [true, true, true],
    [false, true, false],
    [false, true, false],
    [false, false, false]]),
  (',',
   [[false, false],
    [false, false],
    [false, false],
    [false, false],
    [false, false],
    [false, true],
    [true, false]]),
  ('-',
   [[false, false, false],
    [false, false, false],
    [false, false, false],
    [true, true, true],
    [false, false, false],
    [false, false, false],
    [false, false, false]]),
  ('.',
   [[false],
    [false],
    [false],
    [false],
    [false],
    [false],
    [true]]),
  ('/',
   [[false, false, false, true],
    [false, false, true, false],
    [false, false, true, false],
    [false, true, false, false],
    [false, true, false, false],
    [true, false, false, false],
    [true, false, false, false]]),
  ('0',
   [[false, true, true, false],
    [true, false, false, true],
    [true, false, true, true],
    [true, true, false, true],
    [true, false, false, true],
    [true, false, false, true],
    [false, true, true, false]]),
  ('1',
   [[false, true, false],
    [true, true, false],
    [false, true, false],
    [false, true, false],
    [false, true, false],
    [false, true, false],
    [true, true, true]]),
  ('2',
   [[false, true, true, false],
    [true, false, false, true],
    [false, false, false, true],
    [false, false, true, false],
    [false, true, false, false],
    [true, false, false, false],
    [true, true, true, true]]),
  ('3',
   [[false, true, true, false],
    [true, false, false, true],
    [false, false, false, true],
    [false, true, true, false],
    [false, false, false, true],
    [true, false, false, true],
    [false, true, true, false]]),
  ('4',
   [[false, false, true, false],
    [false, true, true, false],
    [true, false, true, false],
    [true, false, true, false],
    [true, true, true, true],
    [false, false, true, false],
    [false, false, true, false]]),
  ('5',
   [[true, true, true, true],
    [true, false, false, false],
    [true, true, true, false],
    [false, false, false, true],
    [false, false, false, true],
    [true, false, false, true],
    [false, true, true, false]]),
  ('6',
   [[false, true, true, false],
    [true, false, false, true],
    [true, false, false, false],
    [true, true, true, false],
    [true, false, false, true],
    [true, false, false, true],
    [false, true, true, false]]),
  ('7',
   [[true, true, true, true],
    [false, false, false, true],
    [false, false, true, false],
    [false, true, false, false],
    [false, true, false, false],
    [false, true, false, false],
    [false, true, false, false]]),
  ('8',
   [[false, true, true, false],
    [true, false, false, true],
    [true, false, false, true],
    [false, true, true, false],
    [true, false, false, true],
    [true, false, false, true],
    [false, true, true, false]]),
  ('9',
   [[false, true, true, false],
    [true, false, false, true],
    [true, false, false, true],
    [false, true, true, true],
    [false, false, false, true],
    [true, false, false, true],
    [false, true, true, false]]),
  (':',
   [[false],
    [true],
    [true],
    [false],
    [true],
    [true],
    [false]]),
  (';',
   [[false, false],
    [false, true],
    [false, true],
    [false, false],
    [false, true],
    [false, true],
    [true, false]]),
  ('<',
   [[false, false, true],
    [false, true, false],
    [true, false, false],
    [true, false, false],
    [true, false, false],
    [false, true, false],
    [false, false, true]]),
  ('=',
   [[false, false, false],
    [false, false, false],
    [true, true, true],
    [false, false, false],
    [true, true, true],
    [false, false, false],
    [false, false, false]]),
  ('>',
   [[true, false, false],
    [false, true, false],
    [false, false, true],
    [false, false, true],
    [false, false, true],
    [false, true, false],
    [true, false, false]]),
  ('?',
   [[false, true, true, false],
    [true, false, false, true],
    [false, false, false, true],
    [false, false, true, false],
    [false, true, false, false],
    [false, false, false, false],
    [false, true, false, false]]),
  ('@',
   [[false, true, true, true, false],
    [true, false, false, false, true],
    [true, false, true, true, true],
    [true, false, true, true, true],
    [true, false, true, true, false],
    [true, false, false, false, false],
    [false, true, true, true, false]]),
  ('A',
   [[false, true, true, false],
    [true, false, false, true],
    [true, false, false, true],
    [true, true, true, true],
    [true, false, false, true],
    [true, false, false, true],
    [true, false, false, true]]),
  ('B',
   [[true, true, true, false],
    [true, false, false, true],
    [true, false, false, true],
    [true, true, true, false],
    [true, false, false, true],
    [true, false, false, true],
    [true, true, true, false]]),
  ('C',
   [[false, true, true, false],
    [true, false, false, true],
    [true, false, false, false],
    [true, false, false, false],
    [true, false, false, false],
    [true, false, false, true],
    [false, true, true, false]]),
  ('D',
   [[true, true, true, false],
    [true, false, false, true],
    [true, false, false, true],
    [true, false, false, true],
    [true, false, false, true],
    [true, false, false, true],
    [true, true, true, false]]),
  ('E',
   [[true, true, true, true],
    [true, false, false, false],
    [true, false, false, false],
    [true, true, true, false],
    [true, false, false, false],
    [true, false, false, false],
    [true, true, true, true]]),
  ('F',
   [[true, true, true, true],
    [true, false, false, false],
    [true, false, false, false],
    [true, true, true, false],
    [true, false, false, false],
    [true, false, false, false],
    [true, false, false, false]]),
  ('G',
   [[false, true, true, false],
    [true, false, false, true],
    [true, false, false, false],
    [true, false, true, true],
    [true, false, false, true],
    [true, false, false, true],
    [false, true, true, true]]),
  ('H',
   [[true, false, false, true],
    [true, false, false, true],
    [true, false, false, true],
    [true, true, true, true],
    [true, false, false, true],
    [true, false, false, true],
    [true, false, false, true]]),
  ('I',
   [[true, true, true],
    [false, true, false],
    [false, true, false],
    [false, true, false],
    [false, true, false],
    [false, true, false],
    [true, true, true]]),
  ('J',
   [[false, false, true, true],
    [false, false, false, true],
    [false, false, false, true],
    [false, false, false, true],
    [true, false, false, true],
    [true, false, false, true],
    [false, true, true, false]]),
  ('K',
   [[true, false, false, true],
    [true, false, true, false],
    [true, true, false, false],
    [true, false, false, false],
    [true, true, false, false],
    [true, false, true, false],
    [true, false, false, true]]),
  ('L',
   [[true, false, false, false],
    [true, false, false, false],
    [true, false, false, false],
    [true, false, false, false],
    [true, false, false, false],
    [true, false, false, false],
    [true, true, true, true]]),
  ('M',
   [[true, false, false, false, true],
    [true, true, false, true, true],
    [true, false, true, false, true],
    [true, false, true, false, true],
    [true, false, false, false, true],
    [true, false, false, false, true],
    [true, false, false, false, true]]),
  ('N',
   [[true, false, false, true],
    [true, true, false, true],
    [true, true, false, true],
    [true, false, true, true],
    [true, false, true, true],
    [true, false, false, true],
    [true, false, false, true]]),
  ('O',
   [[false, true, true, false],
    [true, false, false, true],
    [true, false, false, true],
    [true, false, false, true],
    [true, false, false, true],
    [true, false, false, true],
    [false, true, true, false]]),
  ('P',
   [[true, true, true, false],
    [true, false, false, true],
    [true, false, false, true],
    [true, true, true, false],
    [true, false, false, false],
    [true, false, false, false],
    [true, false, false, false]]),
  ('Q',
   [[false, true, true, false],
    [true, false, false, true],
    [true, false, false, true],
    [true, false, false, true],
    [true, false, true, true],
    [true, false, false, true],
    [false, true, true, true]]),
  ('R',
   [[true, true, true, false],
    [true, false, false, true],
    [true, false, false, true],
    [true, true, true, false],
    [true, false, true, false],
    [true, false, false, true],
    [true, false, false, true]]),
  ('S',
   [[false, true, true, true],
    [true, false, false, false],
    [true, false, false, false],
    [false, true, true, false],
    [false, false, false, true],
    [false, false, false, true],
    [true, true, true, false]]),
  ('T',
   [[true, true, true, true, true],
    [false, false, true, false, false],
    [false, false, true, false, false],
    [false, false, true, false, false],
    [false, false, true, false, false],
    [false, false, true, false, false],
    [false, false, true, false, false]]),
  ('U',
   [[true, false, false, true],
    [true, false, false, true],
    [true, false, false, true],
    [true, false, false, true],
    [true, false, false, true],
    [true, false, false, true],
    [false, true, true, false]]),
  ('V',
   [[true, false, false, true],
    [true, false, false, true],
    [true, false, false, true],
    [true, false, false, true],
    [true, false, false, true],
    [false, true, true, false],
    [false, false, true, false]]),
  ('W',
   [[true, false, false, false, true],
    [true, false, false, false, true],
    [true, false, false, false, true],
    [true, false, true, false, true],
    [true, false, true, false, true],
    [true, true, false, true, true],
    [true, false, false, false, true]]),
  ('X',
   [[true, false, false, true],
    [true, false, false, true],
    [false, true, true, false],
    [false, false, false, false],
    [false, true, true, false],
    [true, false, false, true],
    [true, false, false, true]]),
  ('Y',
   [[true, false, false, true],
    [true, false, false, true],
    [false, true, true, false],
    [false, false, true, false],
    [false, false, true, false],
    [false, false, true, false],
    [false, false, true, false]]),
  ('Z',
   [[true, true, true, true],
    [false, false, false, true],
    [false, false, true, false],
    [false, true, false, false],
    [true, false, false, false],
    [true, false, false, false],
    [true, true, true, true]]),
  ('[',
   [[true, true],
    [true, false],
    [true, false],
    [true, false],
    [true, false],
    [true, false],
    [true, true]]),
  (Char.ofNat 92, -- backslash
   [[true, false, false, false],
    [true, false, false, false],
    [false, true, false, false],
    [false, true, false, false],
    [false, false, true, false],
    [false, false, true, false],
    [false, false, false, true]]),
  (']',
   [[true, true],
    [false, true],
    [false, true],
    [false, true],
    [false, true],
    [false, true],
    [true, true]]),
  ('^',
   [[false, true, false],
    [true, false, true],
    [false, false, false],
    [false, false, false],
    [false, false, false],
    [false, false, false],
    [false, false, false]]),
  ('_',
   [[false, false, false],
    [false, false, false],
    [false, false, false],
    [false, false, false],
    [false, false, false],
    [false, false, false],
    [true, true, true]]),
  (Char.ofNat 96, -- backtick
   [[true, false],
    [false, true],
    [false, false],
    [false, false],
    [false, false],
    [false, false],
    [false, false]]),
  ('a',
   [[false, false, false],
    [false, false, false],
    [false, true, true],
    [false, false, true],
    [false, true, true],
    [true, false, true],
    [false, true, true]]),
  ('b',
   [[true, false, false],
    [true, false, false],
    [true, true, false],
    [true, false, true],
    [true, false, true],
    [true, false, true],
    [true, true, false]]),
  ('c',
   [[false, false, false],
    [false, false, false],
    [false, true, true],
    [true, false, false],
    [true, false, false],
    [true, false, false],
    [false, true, true]]),
  ('d',
   [[false, false, true],
    [false, false, true],
    [false, true, true],
    [true, false, true],
    [true, false, true],
    [true, false, true],
    [false, true, true]]),
  ('e',
   [[false, false, false],
    [false, false, false],
    [false, true, true],
    [true, false, true],
    [true, true, true],
    [true, false, false],
    [false, true, true]]),
  ('f',
   [[false, true, true],
    [true, false, false],
    [true, true, true],
    [true, false, false],
    [true, false, false],
    [true, false, false],
    [true, false, false]]),
  ('g',
   [[false, false, false],
    [false, true, true],
    [true, false, true],
    [true, false, true],
    [false, true, true],
    [false, false, true],
    [false, true, false]]),
  ('h',
   [[true, false, false],
    [true, false, false],
    [true, true, false],
    [true, false, true],
    [true, false, true],
    [true, false, true],
    [true, false, true]]),
  ('i',
   [[false, true, false],
    [false, false, false],
    [true, true, false],
    [false, true, false],
    [false, true, false],
    [false, true, false],
    [true, true, true]]),
  ('j',
   [[false, false, true],
    [false, false, false],
    [false, true, true],
    [false, false, true],
    [false, false, true],
    [true, false, true],
    [false, true, false]]),
  ('k',
   [[true, false, false],
    [true, false, false],
    [true, false, true],
    [true, true, false],
    [true, true, false],
    [true, false, true],
    [true, false, true]]),
  ('l',
   [[true, true, false],
    [false, true, false],
    [false, true, false],
    [false, true, false],
    [false, true, false],
    [false, true, false],
    [true, true, true]]),
  ('m',
   [[false, false, false, false],
    [false, false, false, false],
    [true, true, true, false],
    [true, false, true, true],
    [true, false, true, true],
    [true, false, true, true],
    [true, false, true, true]]),
  ('n',
   [[false, false, false],
    [false, false, false],
    [true, true, false],
    [true, false, true],
    [true, false, true],
    [true, false, true],
    [true, false, true]]),
  ('o',
   [[false, false, false],
    [false, false, false],
    [false, true, false],
    [true, false, true],
    [true, false, true],
    [true, false, true],
    [false, true, false]]),
  ('p',
   [[false, false, false],
    [false, false, false],
    [true, true, false],
    [true, false, true],
    [true, true, false],
    [true, false, false],
    [true, false, false]]),
  ('q',
   [[false, false, false],
    [false, false, false],
    [false, true, true],
    [true, false, true],
    [false, true, true],
    [false, false, true],
    [false, false, true]]),
  ('r',
   [[false, false, false],
    [false, false, false],
    [true, false, true],
    [true, true, false],
    [true, false, false],
    [true, false, false],
    [true, false, false]]),
  ('s',
   [[false, false, false],
    [false, false, false],
    [false, true, true],
    [true, false, false],
    [false, true, false],
    [false, false, true],
    [true, true, false]]),
  ('t',
   [[false, true, false],
    [false, true, false],
    [true, true, true],
    [false, true, false],
    [false, true, false],
    [false, true, false],
    [false, true, true]]),
  ('u',
   [[false, false, false],
    [false, false, false],
    [true, false, true],
    [true, false, true],
    [true, false, true],
    [true, false, true],
    [false, true, true]]),
  ('v',
   [[false, false, false],
    [false, false, false],
    [true, false, true],
    [true, false, true],
    [true, false, true],
    [false, true, false],
    [false, true, false]]),
  ('w',
   [[false, false, false, false],
    [false, false, false, false],
    [true, false, false, true],
    [true, false, false, true],
    [true, false, true, true],
    [true, true, false, true],
    [true, false, false, true]]),
  ('x',
   [[false, false, false],
    [false, false, false],
    [true, false, true],
    [true, false, true],
    [false, true, false],
    [true, false, true],
    [true, false, true]]),
  ('y',
   [[false, false, false],
    [false, false, false],
    [true, false, true],
    [true, false, true],
    [false, true, true],
    [false, false, true],
    [false, true, false]]),
  ('z',
   [[false, false, false],
    [false, false, false],
    [true, true, true],
    [false, false, true],
    [false, true, false],
    [true, false, false],
    [true, true, true]]),
  (Char.ofNat 123, -- left curly brace
   [[false, true, true],
    [false, true, false],
    [false, true, false],
    [true, false, false],
    [false, true, false],
    [false, true, false],
    [false, true, true]]),
  ('|',
   [[false, true, false],
    [false, true, false],
    [false, true, false],
    [false, true, false],
    [false, true, false],
    [false, true, false],
    [false, true, false]]),
  (Char.ofNat 125, -- right curly brace
   [[true, true, false],
    [false, true, false],
    [false, true, false],
    [false, false, true],
    [false, true, false],
    [false, true, false],
    [true, true, false]]),
  ('~',
   [[false, false, false, false],
    [false, false, false, false],
    [false, true, false, true],
    [true, false, true, false],
    [false, false, false, false],
    [false, false, false, false],
    [false, false, false, false]]),
  (Char.ofNat 0xFFFD, -- the Unicode replacement character, the table's bordered-box glyph
   [[true, true, true, true, true],
    [true, false, false, false, true],
    [true, false, true, false, true],
    [true, false, true, false, true],
    [true, false, true, false, true],
    [true, false, false, false, true],
    [true, true, true, true, true]])]

/-- `HashMap::get` on the glyph table (`self.char_bitmaps.get(&c)` in
`render_to_image`). -/
def lookupBitmap (c : Char) : Option CharBitmap := create_character_bitmaps.lookup c

/-- The glyph selection of `render_to_image` (`virtual_term.rs` lines
646-656): the character's own bitmap when present, else the `'?'` bitmap;
the final `continue` arm (no bitmap at all) is unreachable because `'?'` is
in the table. -/
def glyphFor (c : Char) : Option CharBitmap :=
  match lookupBitmap c with
  | some bitmap => some bitmap
  | none => lookupBitmap '?'

/-- An image as a pixel function; `ImageBuffer::new` zero-fills, so the
initial image is black and `to_rgb` is the identity on the channels. -/
abbrev Image := Nat → Nat → TermColor

/-- One guarded `put_pixel`: every `put_pixel` call in `render_to_image` is
wrapped in the same `px < width && py < height` check, folded in here. -/
def putPixel (w2 h2 : Nat) (img : Image) (px py : Nat) (c : TermColor) : Image :=
  if px < w2 ∧ py < h2 then
    fun qx qy => if qx = px ∧ qy = py then c else img qx qy
  else img

/-- The background fill loop of one cell. -/
def drawBg (w2 h2 px_start py_start cell_width cell_height : Nat) (color : TermColor)
    (img : Image) : Image :=
  (List.range' py_start cell_height).foldl (fun im py =>
    (List.range' px_start cell_width).foldl (fun im2 px => putPixel w2 h2 im2 px py color) im)
    img

/-- The glyph drawing loop of one cell: set pixels of the scaled bitmap are
painted in the foreground color at the centering offset. -/
def drawGlyph (w2 h2 px_start py_start offset_x offset_y : Nat) (sb : CharBitmap)
    (fg : TermColor) (img : Image) : Image :=
  sb.enum.foldl (fun im dyrow =>
    dyrow.2.enum.foldl (fun im2 dxp =>
      if dxp.2 then
        putPixel w2 h2 im2 (px_start + offset_x + dxp.1) (py_start + offset_y + dyrow.1) fg
      else im2) im) img

/-- The underline loop of one cell: one pixel row at
`py_start + cell_height - 2` across the cell width. -/
def drawUnderline (w2 h2 px_start underline_y cell_width : Nat) (fg : TermColor)
    (img : Image) : Image :=
  (List.range cell_width).foldl (fun im dx => putPixel w2 h2 im (px_start + dx) underline_y fg)
    img

/-- `(font_size as f32 / 8.0).max(1.0) as usize`: exact, since `font_size`
is a `u8` and division by 8 is exact in `f32`; truncating `max(fs / 8, 1)`
equals `max 1 (fs / 8)` in integer arithmetic. -/
def scaleFactor (font_size : Nat) : Nat := max 1 (font_size / 8)

/-- The body of the per-cell loop of `render_to_image` (`virtual_term.rs`
lines 628-693): background fill, then — for a non-space character with a
bitmap — the scaled glyph centered in the cell, then the underline row when
the cell's underline flag is set.  `(cell_width - bitmap_width) / 2` is `u32`
arithmetic; modelling it with truncating `Nat` subtraction agrees with the
source whenever the scaled glyph fits in the cell (all theorems below assume
`8 ≤ font_size`, which guarantees it; a narrower cell would panic in a debug
build of the source rather than render). -/
def drawCell (w2 h2 font_size x y : Nat) (cell : TermCell) (img : Image) : Image :=
  let cell_width := font_size
  let cell_height := 2 * font_size
  let px_start := x * cell_width
  let py_start := y * cell_height
  let img1 := drawBg w2 h2 px_start py_start cell_width cell_height cell.bg_color img
  if cell.character ≠ ' ' then
    match glyphFor cell.character with
    | none => img1
    | some bitmap =>
      let scaled_bitmap := scale_bitmap bitmap (scaleFactor font_size)
      let bitmap_width := (scaled_bitmap.headD []).length
      let bitmap_height := scaled_bitmap.length
      let offset_x := (cell_width - bitmap_width) / 2
      let offset_y := (cell_height - bitmap_height) / 2
      let img2 := drawGlyph w2 h2 px_start py_start offset_x offset_y scaled_bitmap
        cell.fg_color img1
      if cell.underline then
        drawUnderline w2 h2 px_start (py_start + cell_height - 2) cell_width cell.fg_color img2
      else img2
  else img1

/-- `render_to_image` (`virtual_term.rs` lines 614-696): cells are
`font_size` pixels wide and `2 * font_size` tall (`(font_size as f32 * 2.0)
as u32` is exactly `2 * font_size`), drawn row-major onto a zero-filled
(black) image. -/
def render_to_image (t : VirtualTerminal) (font_size : Nat) : Image :=
  let cell_width := font_size
  let cell_height := 2 * font_size
  let w2 := t.width * cell_width
  let h2 := t.height * cell_height
  (List.range t.height).foldl (fun im y =>
    (List.range t.width).foldl (fun im2 x =>
      drawCell w2 h2 font_size x y (cellAt t y x) im2) im)
    (fun _ _ => ⟨0, 0, 0⟩)

/-- The `'?'` glyph of the table, the renderer's fallback bitmap for unknown
characters. -/
def questionMarkBitmap : CharBitmap :=
  [[false, true, true, false],
   [true, false, false, true],
   [false, false, false, true],
   [false, false, true, false],
   [false, true, false, false],
   [false, false, false, false],
   [false, true, false, false]]

/-- The bordered-box glyph the table stores under the Unicode replacement
character (`bitmap.rs` lines 1276-1288, commented "a fallback for unknown
characters"): a 7-row bitmap whose border pixels are all set. -/
def borderedBoxBitmap : CharBitmap :=
  [[true, true, true, true, true],
   [true, false, false, false, true],
   [true, false, true, false, true],
   [true, false, true, false, true],
   [true, false, true, false, true],
   [true, false, false, false, true],
   [true, true, true, true, true]]

/-- A 1×1 terminal whose only cell is an underlined space with red
foreground on blue background. -/
def spaceUnderlineTerminal : VirtualTerminal :=
  { width := 1, height := 1,
    cells := [[⟨' ', ⟨255, 0, 0⟩, ⟨0, 0, 255⟩, false, false, true⟩]],
    cursor_x := 0, cursor_y := 0, current_fg := ⟨255, 0, 0⟩, current_bg := ⟨0, 0, 255⟩,
    bold := false, italic := false, underline := false, dark_theme := true }

/-- A 1×1 terminal whose only cell holds `λ` (U+03BB), a character absent
from the glyph table, red on blue. -/
def unknownCharTerminal : VirtualTerminal :=
  { width := 1, height := 1,
    cells := [[⟨Char.ofNat 955, ⟨255, 0, 0⟩, ⟨0, 0, 255⟩, false, false, false⟩]],
    cursor_x := 0, cursor_y := 0, current_fg := ⟨255, 0, 0⟩, current_bg := ⟨0, 0, 255⟩,
    bold := false, italic := false, underline := false, dark_theme := true }

/-- A 1×1 terminal whose only cell is an underlined `A`, red on blue. -/
def underlinedLetterTerminal : VirtualTerminal :=
  { width := 1, height := 1,
    cells := [[⟨'A', ⟨255, 0, 0⟩, ⟨0, 0, 255⟩, false, false, true⟩]],
    cursor_x := 0, cursor_y := 0, current_fg := ⟨255, 0, 0⟩, current_bg := ⟨0, 0, 255⟩,
    bold := false, italic := false, underline := false, dark_theme := true }

/-! ### Helper lemmas -/

theorem getD_flatMap_replicate {α β : Type} (d : α) (g : β → α) (k : Nat) (hk : 0 < k) :
    ∀ (l : List β) (y : Nat),
      (l.flatMap fun a => List.replicate k (g a)).getD y d = (l.map g).getD (y / k) d := by
  intro l
  induction l with
  | nil => intro y; simp
  | cons a rest ih =>
    intro y
    rw [List.flatMap_cons, List.map_cons]
    by_cases hy : y < k
    · rw [List.getD_append _ _ _ _ (by simpa using hy), Nat.div_eq_of_lt hy]
      simp [List.getD, hy]
    · push_neg at hy
      rw [List.getD_append_right _ _ _ _ (by simpa using hy)]
      rw [List.length_replicate]
      rw [ih (y - k)]
      have : y / k = (y - k) / k + 1 := by
        rw [Nat.div_eq y k]
        simp [hk, hy]
      rw [this]
      simp [List.getD_cons_succ]

theorem length_flatMap_replicate {α β : Type} (g : β → α) (k : Nat) :
    ∀ l : List β, (l.flatMap fun a => List.replicate k (g a)).length = l.length * k := by
  intro l
  induction l with
  | nil => simp
  | cons a rest ih => simp [List.flatMap_cons, ih, Nat.succ_mul, Nat.add_comm]

theorem scaleRow_length (row : List Bool) (k : Nat) :
    (scaleRow row k).length = row.length * k := by
  simpa [scaleRow] using length_flatMap_replicate (id) k row

theorem scaleRow_getD (row : List Bool) (k : Nat) (hk : 0 < k) (x : Nat) :
    (scaleRow row k).getD x false = row.getD (x / k) false := by
  have h := getD_flatMap_replicate false (id : Bool → Bool) k hk row x
  simpa [scaleRow] using h

theorem getD_map_scaleRow (b : CharBitmap) (k i : Nat) :
    (b.map fun row => scaleRow row k).getD i [] = scaleRow (b.getD i []) k := by
  by_cases hi : i < b.length
  · rw [List.getD_eq_getElem?_getD, List.getElem?_map, List.getElem?_eq_getElem hi]
    simp [List.getD_eq_getElem?_getD, List.getElem?_eq_getElem hi]
  · push_neg at hi
    rw [List.getD_eq_getElem?_getD, List.getElem?_eq_none (by simpa using hi)]
    rw [List.getD_eq_getElem?_getD, List.getElem?_eq_none hi]
    rfl

theorem scale_bitmap_length (b : CharBitmap) (k : Nat) (hk : 1 ≤ k) :
    (scale_bitmap b k).length = b.length * k := by
  unfold scale_bitmap
  by_cases h1 : k ≤ 1
  · rw [if_pos h1]
    have : k = 1 := by omega
    subst this
    simp
  · rw [if_neg h1]
    exact length_flatMap_replicate _ k b

theorem scale_bitmap_row_length (b : CharBitmap) (k : Nat) (hk : 1 ≤ k) (y : Nat) :
    ((scale_bitmap b k).getD y []).length = (b.getD (y / k) []).length * k := by
  unfold scale_bitmap
  by_cases h1 : k ≤ 1
  · rw [if_pos h1]
    have : k = 1 := by omega
    subst this
    simp
  · rw [if_neg h1]
    rw [getD_flatMap_replicate [] _ k (by omega), getD_map_scaleRow, scaleRow_length]

theorem scale_bitmap_pixel (b : CharBitmap) (k : Nat) (hk : 1 ≤ k) (y x : Nat) :
    pixelAt (scale_bitmap b k) y x = pixelAt b (y / k) (x / k) := by
  unfold scale_bitmap pixelAt
  by_cases h1 : k ≤ 1
  · rw [if_pos h1]
    have : k = 1 := by omega
    subst this
    simp
  · rw [if_neg h1]
    rw [getD_flatMap_replicate [] _ k (by omega), getD_map_scaleRow, scaleRow_getD _ _ (by omega)]


/-! ### Grid shape and invariant lemmas -/

theorem foldl_preserve {α β : Type} (P : α → Prop) (f : α → β → α) (l : List β)
    (hf : ∀ a b, P a → P (f a b)) : ∀ a, P a → P (l.foldl f a) := by
  induction l with
  | nil => intro a ha; exact ha
  | cons b rest ih => intro a ha; exact ih _ (hf a b ha)

theorem getD_row_length {cells : List (List TermCell)} {w : Nat}
    (hall : ∀ r ∈ cells, r.length = w) {y : Nat} (hy : y < cells.length) :
    (cells.getD y []).length = w := by
  rw [List.getD_eq_getElem?_getD, List.getElem?_eq_getElem hy]
  exact hall _ (List.getElem_mem hy)

def eqGeom (a b : VirtualTerminal) : Prop :=
  a.width = b.width ∧ a.height = b.height ∧ a.cells = b.cells ∧
  a.cursor_x = b.cursor_x ∧ a.cursor_y = b.cursor_y

theorem eqGeom_refl (a : VirtualTerminal) : eqGeom a a := ⟨rfl, rfl, rfl, rfl, rfl⟩

theorem eqGeom_trans {a b c : VirtualTerminal} (h1 : eqGeom a b) (h2 : eqGeom b c) :
    eqGeom a c := by
  obtain ⟨w1, h1', c1, x1, y1⟩ := h1
  obtain ⟨w2, h2', c2, x2, y2⟩ := h2
  exact ⟨w1.trans w2, h1'.trans h2', c1.trans c2, x1.trans x2, y1.trans y2⟩

theorem WF_of_eqGeom {a b : VirtualTerminal} (hg : eqGeom a b) (h : WF b) : WF a := by
  obtain ⟨hw, hh, hc, hx, hy⟩ := hg
  unfold WF at h ⊢
  rw [hw, hh, hc, hx, hy]
  exact h

theorem clear_cell_WF {t : VirtualTerminal} (h : WF t) (y x : Nat) : WF (clear_cell t y x) := by
  obtain ⟨hw, hh, hcx, hcy, hlen, hrows⟩ := h
  unfold clear_cell
  split
  · rename_i hyx
    refine ⟨hw, hh, hcx, hcy, by simpa using hlen, ?_⟩
    intro r hr
    rcases List.mem_or_eq_of_mem_set hr with h1 | h1
    · exact hrows r h1
    · rw [h1, List.length_set]
      exact getD_row_length hrows (by omega)
  · exact ⟨hw, hh, hcx, hcy, hlen, hrows⟩

theorem clear_cell_fields (t : VirtualTerminal) (y x : Nat) :
    (clear_cell t y x).width = t.width ∧ (clear_cell t y x).height = t.height ∧
    (clear_cell t y x).cursor_x = t.cursor_x ∧ (clear_cell t y x).cursor_y = t.cursor_y ∧
    (clear_cell t y x).current_fg = t.current_fg ∧
    (clear_cell t y x).current_bg = t.current_bg := by
  unfold clear_cell
  split <;> exact ⟨rfl, rfl, rfl, rfl, rfl, rfl⟩

theorem scroll_up_fields (t : VirtualTerminal) :
    (scroll_up t).width = t.width ∧ (scroll_up t).height = t.height ∧
    (scroll_up t).cursor_x = t.cursor_x ∧ (scroll_up t).cursor_y = t.cursor_y ∧
    (scroll_up t).current_fg = t.current_fg ∧
    (scroll_up t).current_bg = t.current_bg := by
  unfold scroll_up
  refine foldl_preserve
    (fun s : VirtualTerminal => s.width = t.width ∧ s.height = t.height ∧
      s.cursor_x = t.cursor_x ∧ s.cursor_y = t.cursor_y ∧ s.current_fg = t.current_fg ∧
      s.current_bg = t.current_bg)
    _ _ ?_ _ ⟨rfl, rfl, rfl, rfl, rfl, rfl⟩
  intro a b ha
  obtain ⟨h1, h2, h3, h4, h5, h6⟩ := clear_cell_fields a (t.height - 1) b
  exact ⟨h1.trans ha.1, h2.trans ha.2.1, h3.trans ha.2.2.1, h4.trans ha.2.2.2.1,
    h5.trans ha.2.2.2.2.1, h6.trans ha.2.2.2.2.2⟩

theorem WF_update_cursor_y {t : VirtualTerminal} (h : WF t) {cy : Nat} (hcy : cy < t.height) :
    WF { t with cursor_y := cy } := by
  unfold WF at h ⊢
  exact ⟨h.1, h.2.1, h.2.2.1, hcy, h.2.2.2.2.1, h.2.2.2.2.2⟩

theorem WF_update_cursor_x {t : VirtualTerminal} (h : WF t) {cx : Nat} (hcx : cx < t.width) :
    WF { t with cursor_x := cx } := by
  unfold WF at h ⊢
  exact ⟨h.1, h.2.1, hcx, h.2.2.2.1, h.2.2.2.2.1, h.2.2.2.2.2⟩

theorem WF_update_cursor_xy {t : VirtualTerminal} (h : WF t) {cx cy : Nat}
    (hcx : cx < t.width) (hcy : cy < t.height) :
    WF { t with cursor_x := cx, cursor_y := cy } := by
  unfold WF at h ⊢
  exact ⟨h.1, h.2.1, hcx, hcy, h.2.2.2.2.1, h.2.2.2.2.2⟩

theorem shift_rows_shape (w : Nat) : ∀ (ys : List Nat) (cells : List (List TermCell)),
    (∀ r ∈ cells, r.length = w) → (∀ y ∈ ys, y < cells.length) →
    (ys.foldl (fun cs y => cs.set (y - 1) (cs.getD y [])) cells).length = cells.length ∧
    ∀ r ∈ ys.foldl (fun cs y => cs.set (y - 1) (cs.getD y [])) cells, r.length = w := by
  intro ys
  induction ys with
  | nil => intro cells hall hys; exact ⟨rfl, hall⟩
  | cons y rest ih =>
    intro cells hall hys
    have hy : y < cells.length := hys y (List.mem_cons_self y rest)
    have hall2 : ∀ r ∈ cells.set (y - 1) (cells.getD y []), r.length = w := by
      intro r hr
      rcases List.mem_or_eq_of_mem_set hr with h1 | h1
      · exact hall r h1
      · rw [h1]
        exact getD_row_length hall hy
    have hys2 : ∀ z ∈ rest, z < (cells.set (y - 1) (cells.getD y [])).length := by
      intro z hz
      rw [List.length_set]
      exact hys z (List.mem_cons_of_mem y hz)
    have hres := ih (cells.set (y - 1) (cells.getD y [])) hall2 hys2
    rw [List.length_set] at hres
    simpa using hres

theorem scroll_up_WF {t : VirtualTerminal} (h : WF t) : WF (scroll_up t) := by
  obtain ⟨hw, hh, hcx, hcy, hlen, hrows⟩ := h
  unfold scroll_up
  have hys : ∀ y ∈ List.range' 1 (t.height - 1), y < t.cells.length := by
    intro y hy
    rw [List.mem_range'_1] at hy
    omega
  obtain ⟨hslen, hsrows⟩ :=
    shift_rows_shape t.width (List.range' 1 (t.height - 1)) t.cells hrows hys
  refine foldl_preserve WF _ _ (fun a b ha => clear_cell_WF ha _ _) _ ?_
  exact ⟨hw, hh, hcx, hcy, hslen.trans hlen, hsrows⟩

theorem newline_WF {t : VirtualTerminal} (h : WF t) : WF (newline t) := by
  have hh := h.2.1
  have ht1 : WF { t with cursor_x := 0, cursor_y := (t.cursor_y + 1) % t.height } :=
    WF_update_cursor_xy h h.1 (Nat.mod_lt _ hh)
  unfold newline
  dsimp only
  split
  · apply WF_update_cursor_y (scroll_up_WF ht1)
    rw [(scroll_up_fields { t with cursor_x := 0, cursor_y := (t.cursor_y + 1) % t.height }).2.1]
    dsimp only
    omega
  · exact ht1

theorem tab_WF {t : VirtualTerminal} (h : WF t) : WF (tab t) := by
  unfold tab
  dsimp only
  split
  · exact WF_update_cursor_xy h h.1 (Nat.mod_lt _ h.2.1)
  · rename_i hlt
    push_neg at hlt
    exact WF_update_cursor_x h hlt

theorem backspace_WF {t : VirtualTerminal} (h : WF t) : WF (backspace t) := by
  unfold backspace
  split
  · exact WF_update_cursor_x h (by have := h.2.2.1; omega)
  · exact h

theorem writeChar_WF {t : VirtualTerminal} (h : WF t) (c : Char) : WF (writeChar t c) := by
  obtain ⟨hw, hh, hcx, hcy, hlen, hrows⟩ := h
  unfold writeChar
  dsimp only
  split
  · have h1 : WF { t with cells := t.cells.set t.cursor_y ((t.cells.getD t.cursor_y []).set t.cursor_x ⟨c, t.current_fg, t.current_bg, t.bold, t.italic, t.underline⟩) } := by
      refine ⟨hw, hh, hcx, hcy, by simpa using hlen, ?_⟩
      intro r hr
      rcases List.mem_or_eq_of_mem_set hr with h2 | h2
      · exact hrows r h2
      · rw [h2, List.length_set]
        exact getD_row_length hrows (by omega)
    split
    · have ht2 : WF { t with cells := t.cells.set t.cursor_y ((t.cells.getD t.cursor_y []).set t.cursor_x ⟨c, t.current_fg, t.current_bg, t.bold, t.italic, t.underline⟩), cursor_x := 0, cursor_y := (t.cursor_y + 1) % t.height } :=
        ⟨h1.1, h1.2.1, hw, Nat.mod_lt _ hh, h1.2.2.2.2.1, h1.2.2.2.2.2⟩
      try dsimp only
      split
      · apply WF_update_cursor_y (scroll_up_WF ht2)
        rw [(scroll_up_fields _).2.1]
        dsimp only
        omega
      · exact ht2
    · rename_i h2
      push_neg at h2
      exact WF_update_cursor_x h1 (by dsimp only; omega)
  · exact ⟨hw, hh, hcx, hcy, hlen, hrows⟩

theorem sgrStep_eqGeom (params : List String) (i : Nat) (t : VirtualTerminal) :
    eqGeom (sgrStep params i t).1 t := by
  unfold eqGeom sgrStep extendedColor set_color set_bright_color set_256_color
    reset_text_attributes
  dsimp only
  generalize (parseU8 (params.getD i "")).getD 0 = param
  generalize (parseU8 (params.getD (i + 1) "")).getD 0 = mode
  by_cases h0 : param = 0
  · rw [if_pos h0]; exact ⟨rfl, rfl, rfl, rfl, rfl⟩
  rw [if_neg h0]
  by_cases h1 : param = 1
  · rw [if_pos h1]; exact ⟨rfl, rfl, rfl, rfl, rfl⟩
  rw [if_neg h1]
  by_cases h3 : param = 3
  · rw [if_pos h3]; exact ⟨rfl, rfl, rfl, rfl, rfl⟩
  rw [if_neg h3]
  by_cases h4 : param = 4
  · rw [if_pos h4]; exact ⟨rfl, rfl, rfl, rfl, rfl⟩
  rw [if_neg h4]
  by_cases h30 : 30 ≤ param ∧ param ≤ 37
  · rw [if_pos h30]; exact ⟨rfl, rfl, rfl, rfl, rfl⟩
  rw [if_neg h30]
  by_cases h40 : 40 ≤ param ∧ param ≤ 47
  · rw [if_pos h40]; exact ⟨rfl, rfl, rfl, rfl, rfl⟩
  rw [if_neg h40]
  by_cases h90 : 90 ≤ param ∧ param ≤ 97
  · rw [if_pos h90]; exact ⟨rfl, rfl, rfl, rfl, rfl⟩
  rw [if_neg h90]
  by_cases h100 : 100 ≤ param ∧ param ≤ 107
  · rw [if_pos h100]; exact ⟨rfl, rfl, rfl, rfl, rfl⟩
  rw [if_neg h100]
  by_cases h38 : param = 38
  · rw [if_pos h38]
    by_cases hi1 : i + 1 < params.length
    · rw [if_pos hi1]
      by_cases hm5 : mode = 5 ∧ i + 2 < params.length
      · rw [if_pos hm5]; exact ⟨rfl, rfl, rfl, rfl, rfl⟩
      rw [if_neg hm5]
      by_cases hm2 : mode = 2 ∧ i + 4 < params.length
      · rw [if_pos hm2]; exact ⟨rfl, rfl, rfl, rfl, rfl⟩
      rw [if_neg hm2]; exact ⟨rfl, rfl, rfl, rfl, rfl⟩
    · rw [if_neg hi1]; exact ⟨rfl, rfl, rfl, rfl, rfl⟩
  rw [if_neg h38]
  by_cases h48 : param = 48
  · rw [if_pos h48]
    by_cases hi1 : i + 1 < params.length
    · rw [if_pos hi1]
      by_cases hm5 : mode = 5 ∧ i + 2 < params.length
      · rw [if_pos hm5]; exact ⟨rfl, rfl, rfl, rfl, rfl⟩
      rw [if_neg hm5]
      by_cases hm2 : mode = 2 ∧ i + 4 < params.length
      · rw [if_pos hm2]; exact ⟨rfl, rfl, rfl, rfl, rfl⟩
      rw [if_neg hm2]; exact ⟨rfl, rfl, rfl, rfl, rfl⟩
    · rw [if_neg hi1]; exact ⟨rfl, rfl, rfl, rfl, rfl⟩
  rw [if_neg h48]
  exact ⟨rfl, rfl, rfl, rfl, rfl⟩

theorem sgrLoop_eqGeom (params : List String) :
    ∀ (fuel i : Nat) (t : VirtualTerminal), eqGeom (sgrLoop params fuel i t) t := by
  intro fuel
  induction fuel with
  | zero => intro i t; exact eqGeom_refl t
  | succ fuel ih =>
    intro i t
    unfold sgrLoop
    split
    · exact eqGeom_trans (ih _ _) (sgrStep_eqGeom params i t)
    · exact eqGeom_refl t

theorem reset_eqGeom (t : VirtualTerminal) : eqGeom (reset_text_attributes t) t :=
  ⟨rfl, rfl, rfl, rfl, rfl⟩

theorem eraseJ_WF {t : VirtualTerminal} (h : WF t) (mode : Nat) : WF (eraseJ t mode) := by
  unfold eraseJ
  repeat' split
  · exact foldl_preserve WF _ _
      (fun a b ha => foldl_preserve WF _ _ (fun a2 b2 ha2 => clear_cell_WF ha2 _ _) a ha) _
      (foldl_preserve WF _ _ (fun a b ha => clear_cell_WF ha _ _) _ h)
  · exact foldl_preserve WF _ _ (fun a b ha => clear_cell_WF ha _ _) _
      (foldl_preserve WF _ _
        (fun a b ha => foldl_preserve WF _ _ (fun a2 b2 ha2 => clear_cell_WF ha2 _ _) a ha) _ h)
  · exact foldl_preserve WF _ _
      (fun a b ha => foldl_preserve WF _ _ (fun a2 b2 ha2 => clear_cell_WF ha2 _ _) a ha) _ h
  · exact h

theorem eraseK_WF {t : VirtualTerminal} (h : WF t) (mode : Nat) : WF (eraseK t mode) := by
  unfold eraseK
  repeat' split
  · exact foldl_preserve WF _ _ (fun a b ha => clear_cell_WF ha _ _) _ h
  · exact foldl_preserve WF _ _ (fun a b ha => clear_cell_WF ha _ _) _ h
  · exact foldl_preserve WF _ _ (fun a b ha => clear_cell_WF ha _ _) _ h
  · exact h

theorem process_csi_WF {t : VirtualTerminal} (h : WF t) (sequence : String) (command : Char) :
    WF (process_csi_sequence t sequence command) := by
  have hw := h.1
  have hh := h.2.1
  unfold process_csi_sequence
  split
  · dsimp only
    split
    · exact WF_of_eqGeom (reset_eqGeom t) h
    · split
      · exact WF_of_eqGeom (reset_eqGeom t) h
      · exact WF_of_eqGeom (sgrLoop_eqGeom _ _ _ _) h
  split
  · dsimp only
    split
    · exact WF_update_cursor_y h (by have := h.2.2.2.1; omega)
    · exact WF_update_cursor_y h hh
  split
  · exact WF_update_cursor_y h (by omega)
  split
  · exact WF_update_cursor_x h (by omega)
  split
  · dsimp only
    split
    · exact WF_update_cursor_x h (by have := h.2.2.1; omega)
    · exact WF_update_cursor_x h hw
  split
  · exact WF_update_cursor_xy h (by omega) (by omega)
  split
  · exact eraseJ_WF h _
  split
  · exact eraseK_WF h _
  exact h

theorem processChars_WF_aux : ∀ (n : Nat) (l : List Char) (t : VirtualTerminal)
    (st : Option String), l.length ≤ n → WF t → WF (processChars t st l) := by
  intro n
  induction n with
  | zero =>
    intro l t st hl h
    have hnil : l = [] := List.eq_nil_of_length_eq_zero (by omega)
    subst hnil
    cases st <;> exact h
  | succ n ih =>
    intro l t st hl h
    cases l with
    | nil => cases st <;> exact h
    | cons c rest =>
      have hrest : rest.length ≤ n := by simp at hl; omega
      cases st with
      | some seq =>
        simp only [processChars]
        by_cases halpha : c.isAlpha
        · rw [if_pos halpha]
          exact ih rest _ none hrest (process_csi_WF h seq c)
        · rw [if_neg halpha]
          exact ih rest _ _ hrest h
      | none =>
        have hstep : ∀ r : List Char, r.length ≤ n →
            WF (if c = '\n' then processChars (newline t) none r
              else if c = '\r' then processChars { t with cursor_x := 0 } none r
              else if c = '\t' then processChars (tab t) none r
              else if c = '\x08' then processChars (backspace t) none r
              else processChars (writeChar t c) none r) := by
          intro r hr
          by_cases hnl : c = '\n'
          · rw [if_pos hnl]
            exact ih r _ none hr (newline_WF h)
          rw [if_neg hnl]
          by_cases hcr : c = '\r'
          · rw [if_pos hcr]
            exact ih r _ none hr (WF_update_cursor_x h h.1)
          rw [if_neg hcr]
          by_cases htb : c = '\t'
          · rw [if_pos htb]
            exact ih r _ none hr (tab_WF h)
          rw [if_neg htb]
          by_cases hbs : c = '\x08'
          · rw [if_pos hbs]
            exact ih r _ none hr (backspace_WF h)
          rw [if_neg hbs]
          exact ih r _ none hr (writeChar_WF h c)
        cases rest with
        | nil =>
          simp only [processChars]
          by_cases hesc : c = '\x1B'
          · rw [if_pos hesc]
            exact h
          · rw [if_neg hesc]
            exact hstep [] (by omega)
        | cons c2 rest2 =>
          have hrest2 : rest2.length ≤ n := by simp at hl; omega
          simp only [processChars]
          by_cases hesc : c = '\x1B'
          · rw [if_pos hesc]
            by_cases hbr : c2 = '['
            · rw [if_pos hbr]
              exact ih rest2 t (some "") hrest2 h
            · rw [if_neg hbr]
              exact ih rest2 t none hrest2 h
          · rw [if_neg hesc]
            exact hstep (c2 :: rest2) hrest

theorem processChars_WF {t : VirtualTerminal} (h : WF t) (st : Option String) (l : List Char) :
    WF (processChars t st l) :=
  processChars_WF_aux l.length l t st (Nat.le_refl _) h

/-! ### Cleared-cell content lemmas -/

theorem getD_set_self {α : Type} (d : α) (l : List α) (i : Nat) (a : α) (h : i < l.length) :
    (l.set i a).getD i d = a := by
  rw [List.getD_eq_getElem?_getD, List.getElem?_set_eq_of_lt _ h, Option.getD_some]

theorem getD_set_ne {α : Type} (d : α) (l : List α) {i j : Nat} (a : α) (h : ¬ i = j) :
    (l.set i a).getD j d = l.getD j d := by
  rw [List.getD_eq_getElem?_getD, List.getElem?_set_ne h, ← List.getD_eq_getElem?_getD]

theorem cellAt_clear_cell_self {t : VirtualTerminal} (hlen : t.cells.length = t.height)
    (hrows : ∀ r ∈ t.cells, r.length = t.width) {y x : Nat}
    (hy : y < t.height) (hx : x < t.width) :
    cellAt (clear_cell t y x) y x = clearedCell t := by
  unfold clear_cell cellAt clearedCell
  rw [if_pos ⟨hy, hx⟩]
  dsimp only
  rw [getD_set_self [] t.cells y _ (by omega)]
  rw [getD_set_self TermCell.default _ x _ (by rw [getD_row_length hrows (by omega)]; exact hx)]

theorem cellAt_clear_cell_ne {t : VirtualTerminal} {y x y2 x2 : Nat}
    (hne : ¬ (y2 = y ∧ x2 = x)) :
    cellAt (clear_cell t y x) y2 x2 = cellAt t y2 x2 := by
  unfold clear_cell cellAt
  split
  · dsimp only
    by_cases hyy : y2 = y
    · subst hyy
      have hxx : ¬ x = x2 := fun hc => hne ⟨rfl, hc.symm⟩
      by_cases hylen : y2 < t.cells.length
      · rw [getD_set_self [] t.cells y2 _ hylen]
        rw [getD_set_ne TermCell.default _ _ hxx]
      · rw [List.set_eq_of_length_le (by omega)]
    · rw [getD_set_ne [] t.cells _ (fun hc => hyy hc.symm)]
  · rfl

theorem clearedCell_clear_cell (t : VirtualTerminal) (y x : Nat) :
    clearedCell (clear_cell t y x) = clearedCell t := by
  obtain ⟨_, _, _, _, h5, h6⟩ := clear_cell_fields t y x
  unfold clearedCell
  rw [h5, h6]

theorem foldl_clear_fields (cy : Nat) (xs : List Nat) (t : VirtualTerminal) :
    (xs.foldl (fun s x => clear_cell s cy x) t).width = t.width ∧
    (xs.foldl (fun s x => clear_cell s cy x) t).height = t.height ∧
    clearedCell (xs.foldl (fun s x => clear_cell s cy x) t) = clearedCell t := by
  refine foldl_preserve (fun s : VirtualTerminal => s.width = t.width ∧ s.height = t.height ∧
    clearedCell s = clearedCell t) _ _ ?_ _ ⟨rfl, rfl, rfl⟩
  intro a b ha
  obtain ⟨h1, h2, _, _, _, _⟩ := clear_cell_fields a cy b
  exact ⟨h1.trans ha.1, h2.trans ha.2.1, (clearedCell_clear_cell a cy b).trans ha.2.2⟩

theorem foldl_clear_not_touched {y x cy : Nat} :
    ∀ (xs : List Nat) (t : VirtualTerminal), (∀ x2 ∈ xs, ¬ (y = cy ∧ x = x2)) →
    cellAt (xs.foldl (fun s x2 => clear_cell s cy x2) t) y x = cellAt t y x := by
  intro xs
  induction xs with
  | nil => intro t _; rfl
  | cons x0 rest ih =>
    intro t hno
    have h0 := @cellAt_clear_cell_ne t cy x0 y x
      (hno x0 (List.mem_cons_self x0 rest))
    rw [List.foldl_cons, ih _ (fun x2 hx2 => hno x2 (List.mem_cons_of_mem x0 hx2)), h0]

theorem foldl_clear_of_mem {cy x : Nat} :
    ∀ (xs : List Nat) (t : VirtualTerminal), WF t → cy < t.height → x < t.width → x ∈ xs →
    cellAt (xs.foldl (fun s x2 => clear_cell s cy x2) t) cy x = clearedCell t := by
  intro xs
  induction xs with
  | nil => intro t _ _ _ hmem; exact absurd hmem (List.not_mem_nil x)
  | cons x0 rest ih =>
    intro t hW hcy hx hmem
    rw [List.foldl_cons]
    by_cases hrest : x ∈ rest
    · have hW0 := clear_cell_WF hW cy x0
      obtain ⟨g1, g2, _, _, _, _⟩ := clear_cell_fields t cy x0
      rw [ih _ hW0 (by omega) (by omega) hrest]
      exact clearedCell_clear_cell t cy x0
    · have hx0 : x = x0 := by
        rcases List.mem_cons.mp hmem with h | h
        · exact h
        · exact absurd h hrest
      subst hx0
      rw [foldl_clear_not_touched rest _ (fun x2 hx2 hc => hrest (by rw [hc.2]; exact hx2))]
      exact cellAt_clear_cell_self hW.2.2.2.2.1 hW.2.2.2.2.2 hcy hx

theorem rows_fold_fields (w2 : Nat) (ys : List Nat) (t : VirtualTerminal) :
    (ys.foldl (fun s y2 => (List.range w2).foldl (fun s2 x2 => clear_cell s2 y2 x2) s) t).width
      = t.width ∧
    (ys.foldl (fun s y2 => (List.range w2).foldl (fun s2 x2 => clear_cell s2 y2 x2) s) t).height
      = t.height ∧
    clearedCell
      (ys.foldl (fun s y2 => (List.range w2).foldl (fun s2 x2 => clear_cell s2 y2 x2) s) t)
      = clearedCell t := by
  refine foldl_preserve (fun s : VirtualTerminal => s.width = t.width ∧ s.height = t.height ∧
    clearedCell s = clearedCell t) _ _ ?_ _ ⟨rfl, rfl, rfl⟩
  intro a b ha
  obtain ⟨h1, h2, h3⟩ := foldl_clear_fields b (List.range w2) a
  exact ⟨h1.trans ha.1, h2.trans ha.2.1, h3.trans ha.2.2⟩

theorem rows_fold_not_touched {y x : Nat} (w2 : Nat) :
    ∀ (ys : List Nat) (t : VirtualTerminal), (∀ y2 ∈ ys, ¬ y = y2) →
    cellAt (ys.foldl (fun s y2 => (List.range w2).foldl (fun s2 x2 => clear_cell s2 y2 x2) s) t)
      y x = cellAt t y x := by
  intro ys
  induction ys with
  | nil => intro t _; rfl
  | cons y0 rest ih =>
    intro t hno
    rw [List.foldl_cons, ih _ (fun y2 hy2 => hno y2 (List.mem_cons_of_mem y0 hy2))]
    exact foldl_clear_not_touched _ _ (fun x2 _ hc => hno y0 (List.mem_cons_self y0 rest) hc.1)

theorem rows_fold_of_mem {y x : Nat} (w2 : Nat) :
    ∀ (ys : List Nat) (t : VirtualTerminal), WF t → y < t.height → x < t.width → y ∈ ys →
    x < w2 →
    cellAt (ys.foldl (fun s y2 => (List.range w2).foldl (fun s2 x2 => clear_cell s2 y2 x2) s) t)
      y x = clearedCell t := by
  intro ys
  induction ys with
  | nil => intro t _ _ _ hmem _; exact absurd hmem (List.not_mem_nil y)
  | cons y0 rest ih =>
    intro t hW hy hx hmem hxw
    rw [List.foldl_cons]
    have hW0 : WF ((List.range w2).foldl (fun s2 x2 => clear_cell s2 y0 x2) t) :=
      foldl_preserve WF _ _ (fun a b ha => clear_cell_WF ha _ _) _ hW
    obtain ⟨g1, g2, g3⟩ := foldl_clear_fields y0 (List.range w2) t
    by_cases hrest : y ∈ rest
    · rw [ih _ hW0 (by omega) (by omega) hrest hxw]
      exact g3
    · have hy0 : y = y0 := by
        rcases List.mem_cons.mp hmem with h | h
        · exact h
        · exact absurd h hrest
      subst hy0
      rw [rows_fold_not_touched w2 rest _ (fun y2 hy2 hc => hrest (by rw [hc]; exact hy2))]
      exact foldl_clear_of_mem _ _ hW hy hx (List.mem_range.mpr hxw)

/-! ### Rasterizer frame lemmas -/

theorem putPixel_outside {w2 h2 : Nat} {img : Image} {px py qx qy : Nat} {c : TermColor}
    (h : ¬ (qx = px ∧ qy = py)) : putPixel w2 h2 img px py c qx qy = img qx qy := by
  unfold putPixel
  split
  · simp [h]
  · rfl

theorem putPixel_at {w2 h2 : Nat} {img : Image} {px py : Nat} {c : TermColor}
    (hx : px < w2) (hy : py < h2) : putPixel w2 h2 img px py c px py = c := by
  unfold putPixel
  rw [if_pos ⟨hx, hy⟩]
  simp

theorem foldl_img_preserve {β : Type} (f : Image → β → Image) (l : List β) (qx qy : Nat)
    (h : ∀ im b, b ∈ l → f im b qx qy = im qx qy) :
    ∀ img : Image, (l.foldl f img) qx qy = img qx qy := by
  induction l with
  | nil => intro img; rfl
  | cons b rest ih =>
    intro img
    rw [List.foldl_cons, ih (fun im b2 hb2 => h im b2 (List.mem_cons_of_mem b hb2))]
    exact h img b (List.mem_cons_self b rest)

theorem drawBg_outside {w2 h2 px_start py_start cell_width cell_height : Nat}
    {color : TermColor} {img : Image} {qx qy : Nat}
    (h : qx < px_start ∨ px_start + cell_width ≤ qx ∨ qy < py_start ∨
      py_start + cell_height ≤ qy) :
    drawBg w2 h2 px_start py_start cell_width cell_height color img qx qy = img qx qy := by
  unfold drawBg
  refine foldl_img_preserve _ _ _ _ ?_ img
  intro im py hpy
  rw [List.mem_range'_1] at hpy
  refine foldl_img_preserve _ _ _ _ ?_ im
  intro im2 px hpx
  rw [List.mem_range'_1] at hpx
  exact putPixel_outside (by omega)

theorem drawGlyph_outside {w2 h2 px_start py_start offset_x offset_y : Nat} {sb : CharBitmap}
    {fg : TermColor} {img : Image} {qx qy : Nat} {bw : Nat}
    (hrows : ∀ row ∈ sb, row.length ≤ bw)
    (h : qx < px_start + offset_x ∨ px_start + offset_x + bw ≤ qx ∨
      qy < py_start + offset_y ∨ py_start + offset_y + sb.length ≤ qy) :
    drawGlyph w2 h2 px_start py_start offset_x offset_y sb fg img qx qy = img qx qy := by
  unfold drawGlyph
  refine foldl_img_preserve _ _ _ _ ?_ img
  intro im dyrow hdy
  rw [List.mem_enum_iff_getElem?] at hdy
  have hdy1 : dyrow.1 < sb.length := by
    by_contra hc
    rw [List.getElem?_eq_none (by omega)] at hdy
    exact Option.noConfusion hdy
  have hdy2 : dyrow.2 ∈ sb := List.getElem?_mem hdy
  refine foldl_img_preserve _ _ _ _ ?_ im
  intro im2 dxp hdx
  rw [List.mem_enum_iff_getElem?] at hdx
  have hdx1 : dxp.1 < dyrow.2.length := by
    by_contra hc
    rw [List.getElem?_eq_none (by omega)] at hdx
    exact Option.noConfusion hdx
  have hbw := hrows dyrow.2 hdy2
  split
  · exact putPixel_outside (by omega)
  · rfl

theorem drawUnderline_outside {w2 h2 px_start underline_y cell_width : Nat} {fg : TermColor}
    {img : Image} {qx qy : Nat}
    (h : ¬ qy = underline_y ∨ qx < px_start ∨ px_start + cell_width ≤ qx) :
    drawUnderline w2 h2 px_start underline_y cell_width fg img qx qy = img qx qy := by
  unfold drawUnderline
  refine foldl_img_preserve _ _ _ _ ?_ img
  intro im dx hdx
  rw [List.mem_range] at hdx
  exact putPixel_outside (by omega)

theorem lookup_mem {α β : Type} [BEq α] [LawfulBEq α] :
    ∀ (l : List (α × β)) (k : α) (b : β), l.lookup k = some b → ∃ a, (a, b) ∈ l := by
  intro l
  induction l with
  | nil => intro k b h; exact Option.noConfusion h
  | cons e rest ih =>
    intro k b h
    rw [List.lookup_cons] at h
    cases hk : k == e.1 with
    | true =>
      simp only [hk] at h
      exact ⟨e.1, by rw [← Option.some_inj.mp h]; exact List.mem_cons_self _ _⟩
    | false =>
      simp only [hk] at h
      obtain ⟨a, ha⟩ := ih k b h
      exact ⟨a, List.mem_cons_of_mem _ ha⟩

theorem table_glyphs_wellformed : create_character_bitmaps.all (fun e =>
    e.2.length == 7 && (decide (0 < (e.2.headD []).length)) &&
    (decide ((e.2.headD []).length ≤ 5)) &&
    e.2.all (fun row => row.length == (e.2.headD []).length)) = true := by decide

theorem glyphFor_wellformed (c : Char) (bm : CharBitmap) (h : glyphFor c = some bm) :
    bm.length = 7 ∧ 0 < (bm.headD []).length ∧ (bm.headD []).length ≤ 5 ∧
    ∀ row ∈ bm, row.length = (bm.headD []).length := by
  have hmem : ∃ a, (a, bm) ∈ create_character_bitmaps := by
    unfold glyphFor lookupBitmap at h
    rcases hc : create_character_bitmaps.lookup c with _ | bm2
    · rw [hc] at h
      exact lookup_mem _ _ _ h
    · rw [hc] at h
      exact lookup_mem _ c bm (hc.trans (by rw [Option.some_inj.mp h]))
  obtain ⟨a, ha⟩ := hmem
  have := List.all_eq_true.mp table_glyphs_wellformed (a, bm) ha
  simp only [Bool.and_eq_true, beq_iff_eq, decide_eq_true_eq, List.all_eq_true] at this
  exact ⟨this.1.1.1, this.1.1.2, this.1.2, fun row hr => beq_iff_eq.mp (by
    have := this.2 row hr
    simpa using this)⟩

theorem glyphFor_isSome (c : Char) : ∃ bm, glyphFor c = some bm := by
  unfold glyphFor
  rcases hc : lookupBitmap c with _ | bm2
  · exact ⟨_, rfl⟩
  · exact ⟨bm2, rfl⟩

theorem headD_eq_getD_zero {α : Type} (l : List α) (d : α) : l.headD d = l.getD 0 d := by
  cases l <;> rfl

theorem scaled_glyph_dims (bm : CharBitmap) (k : Nat) (hk : 1 ≤ k)
    (hlen : bm.length = 7) (hrows : ∀ row ∈ bm, row.length = (bm.headD []).length) :
    (scale_bitmap bm k).length = 7 * k ∧
    ((scale_bitmap bm k).headD []).length = (bm.headD []).length * k ∧
    ∀ row ∈ scale_bitmap bm k, row.length = (bm.headD []).length * k := by
  refine ⟨by rw [scale_bitmap_length bm k hk, hlen, Nat.mul_comm], ?_, ?_⟩
  · rw [headD_eq_getD_zero, scale_bitmap_row_length bm k hk 0, Nat.zero_div,
      ← headD_eq_getD_zero]
  · intro row hrow
    unfold scale_bitmap at hrow
    by_cases h1 : k ≤ 1
    · rw [if_pos h1] at hrow
      have : k = 1 := by omega
      subst this
      rw [Nat.mul_one]
      exact hrows row hrow
    · rw [if_neg h1] at hrow
      rw [List.mem_flatMap] at hrow
      obtain ⟨src, hsrc, hrep⟩ := hrow
      rw [List.eq_of_mem_replicate hrep, scaleRow_length, hrows src hsrc]

theorem drawCell_outside {w2 h2 font_size x y qx qy : Nat} {cell : TermCell} {img : Image}
    (hfs : 8 ≤ font_size)
    (h : qx < x * font_size ∨ (x + 1) * font_size ≤ qx ∨ qy < y * (2 * font_size) ∨
      (y + 1) * (2 * font_size) ≤ qy) :
    drawCell w2 h2 font_size x y cell img qx qy = img qx qy := by
  have hsf : scaleFactor font_size = font_size / 8 := by
    unfold scaleFactor
    omega
  have hx1 : (x + 1) * font_size = x * font_size + font_size := by ring
  have hy1 : (y + 1) * (2 * font_size) = y * (2 * font_size) + 2 * font_size := by ring
  have hbg : ∀ im : Image,
      drawBg w2 h2 (x * font_size) (y * (2 * font_size)) font_size (2 * font_size)
        cell.bg_color im qx qy = im qx qy := by
    intro im
    exact drawBg_outside (by rcases h with h | h | h | h <;> omega)
  unfold drawCell
  dsimp only
  split
  · rcases hglyph : glyphFor cell.character with _ | bm
    · exact hbg img
    · obtain ⟨hlen7, hw0, hw5, hrows⟩ := glyphFor_wellformed _ _ hglyph
      obtain ⟨hslen, hshead, hsrows⟩ :=
        scaled_glyph_dims bm (scaleFactor font_size) (by unfold scaleFactor; omega) hlen7 hrows
      have hkfs : scaleFactor font_size = font_size / 8 := hsf
      have hbound : (bm.headD []).length * scaleFactor font_size ≤ font_size := by
        rw [hkfs]
        have h5 : (bm.headD []).length * (font_size / 8) ≤ 5 * (font_size / 8) :=
          Nat.mul_le_mul_right _ hw5
        omega
      have hbh : 7 * scaleFactor font_size ≤ 2 * font_size := by
        rw [hkfs]
        omega
      have hglyph_pres : ∀ im : Image,
          drawGlyph w2 h2 (x * font_size) (y * (2 * font_size))
            ((font_size - ((scale_bitmap bm (scaleFactor font_size)).headD []).length) / 2)
            ((2 * font_size - (scale_bitmap bm (scaleFactor font_size)).length) / 2)
            (scale_bitmap bm (scaleFactor font_size)) cell.fg_color im qx qy = im qx qy := by
        intro im
        have hrowsle : ∀ row ∈ scale_bitmap bm (scaleFactor font_size),
            row.length ≤ (bm.headD []).length * scaleFactor font_size :=
          fun row hr => Nat.le_of_eq (hsrows row hr)
        refine drawGlyph_outside hrowsle ?_
        rw [hshead, hslen]
        rcases h with h | h | h | h
        · left
          omega
        · right
          left
          have hx1 : (x + 1) * font_size = x * font_size + font_size := by ring
          omega
        · right
          right
          left
          omega
        · right
          right
          right
          have hy1 : (y + 1) * (2 * font_size) = y * (2 * font_size) + 2 * font_size := by ring
          omega
      split
      · refine (drawUnderline_outside ?_).trans ((hglyph_pres _).trans (hbg img))
        rcases h with h | h | h | h
        · right
          left
          omega
        · right
          right
          have hx1 : (x + 1) * font_size = x * font_size + font_size := by ring
          omega
        · left
          omega
        · left
          have hy1 : (y + 1) * (2 * font_size) = y * (2 * font_size) + 2 * font_size := by ring
          omega
      · exact (hglyph_pres _).trans (hbg img)
  · exact hbg img

theorem drawUnderline_at {w2 h2 px_start underline_y cell_width : Nat} {fg : TermColor}
    {img : Image} {px0 : Nat} (hpx : px0 < cell_width) (hw : px_start + px0 < w2)
    (hh : underline_y < h2) :
    drawUnderline w2 h2 px_start underline_y cell_width fg img (px_start + px0) underline_y
      = fg := by
  unfold drawUnderline
  have hsplit : List.range cell_width =
      (List.range px0 ++ [px0]) ++ List.range' (px0 + 1) (cell_width - px0 - 1) := by
    rw [← List.range_succ, List.range_eq_range', List.range_eq_range']
    have happ := List.range'_append 0 (px0 + 1) (cell_width - px0 - 1) 1
    simp only [Nat.one_mul, Nat.zero_add] at happ
    rw [happ]
    congr 1
    omega
  rw [hsplit, List.foldl_append, List.foldl_append]
  rw [foldl_img_preserve _ _ _ _ ?_ _]
  · rw [List.foldl_cons]
    exact putPixel_at hw hh
  · intro im dx hdx
    rw [List.mem_range'_1] at hdx
    exact putPixel_outside (by omega)

theorem drawCell_underline_at {w2 h2 font_size x y px0 : Nat} {cell : TermCell} {img : Image}
    (hchar : cell.character ≠ ' ') (hul : cell.underline = true) (hpx : px0 < font_size)
    (hw : x * font_size + px0 < w2) (hh : y * (2 * font_size) + (2 * font_size - 2) < h2) :
    drawCell w2 h2 font_size x y cell img (x * font_size + px0)
      (y * (2 * font_size) + (2 * font_size - 2)) = cell.fg_color := by
  unfold drawCell
  dsimp only
  rw [if_pos hchar]
  obtain ⟨bm, hglyph⟩ := glyphFor_isSome cell.character
  rw [hglyph]
  dsimp only
  rw [if_pos hul]
  have huy : y * (2 * font_size) + 2 * font_size - 2 =
      y * (2 * font_size) + (2 * font_size - 2) := by omega
  rw [huy]
  exact drawUnderline_at hpx hw hh

theorem range_split (n i : Nat) (h : i < n) :
    List.range n = (List.range i ++ [i]) ++ List.range' (i + 1) (n - i - 1) := by
  rw [← List.range_succ, List.range_eq_range', List.range_eq_range']
  have happ := List.range'_append 0 (i + 1) (n - i - 1) 1
  simp only [Nat.one_mul, Nat.zero_add] at happ
  rw [happ]
  congr 1
  omega

theorem render_underline_pixel (t : VirtualTerminal) (font_size x y px0 : Nat)
    (hfs : 8 ≤ font_size) (hx : x < t.width) (hy : y < t.height)
    (hpx : px0 < font_size) (hchar : (cellAt t y x).character ≠ ' ')
    (hul : (cellAt t y x).underline = true) :
    render_to_image t font_size (x * font_size + px0)
      (y * (2 * font_size) + (2 * font_size - 2)) = (cellAt t y x).fg_color := by
  have hxe : (x + 1) * font_size = x * font_size + font_size := by ring
  have hye : (y + 1) * (2 * font_size) = y * (2 * font_size) + 2 * font_size := by ring
  have hx1 : (x + 1) * font_size ≤ t.width * font_size :=
    Nat.mul_le_mul_right _ (by omega)
  have hy1 : (y + 1) * (2 * font_size) ≤ t.height * (2 * font_size) :=
    Nat.mul_le_mul_right _ (by omega)
  have hqx : x * font_size + px0 < t.width * font_size := by omega
  have hqy : y * (2 * font_size) + (2 * font_size - 2) < t.height * (2 * font_size) := by
    omega
  unfold render_to_image
  rw [range_split t.height y hy, List.foldl_append, List.foldl_append]
  rw [foldl_img_preserve _ _ _ _ ?later _]
  case later =>
    intro im y2 hy2
    rw [List.mem_range'_1] at hy2
    refine foldl_img_preserve _ _ _ _ ?_ im
    intro im2 x2 hx2
    refine drawCell_outside hfs ?_
    have hmul : (y + 1) * (2 * font_size) ≤ y2 * (2 * font_size) :=
      Nat.mul_le_mul_right _ (by omega)
    right
    right
    left
    omega
  rw [List.foldl_cons, List.foldl_nil]
  rw [range_split t.width x hx, List.foldl_append, List.foldl_append]
  rw [foldl_img_preserve _ _ _ _ ?cols _]
  case cols =>
    intro im x2 hx2
    rw [List.mem_range'_1] at hx2
    refine drawCell_outside hfs ?_
    have hmul : (x + 1) * font_size ≤ x2 * font_size :=
      Nat.mul_le_mul_right _ (by omega)
    left
    omega
  rw [List.foldl_cons, List.foldl_nil]
  exact drawCell_underline_at hchar hul hpx hqx hqy

/-! ### Claim theorems: timeline assembly and bitmap scaling -/

/-- C1 (counterexample): for the two-record sequence
`{content:"X", timestamp:0}`, `{content:"Y", timestamp:250}` with speed 1.0,
the export loop emits delays 10 and 10 — not 10 and 25 as the claim states —
because the loop's guard is `last_timestamp > 0`, so a record whose
predecessor has timestamp 0 also receives the fixed default delay. -/
theorem delays_after_zero_timestamp_default :
    frameDelays 1 0 [⟨"X", 0⟩, ⟨"Y", 250⟩] = some [10, 10] ∧
    frameDelays 1 0 [⟨"X", 0⟩, ⟨"Y", 250⟩] ≠ some [10, 25] := by
  constructor
  · decide
  · decide

/-- C1 (amended): the first frame's delay is the fixed default 10 regardless
of speed and timestamps, and a record whose predecessor has a positive
timestamp no larger than its own gets delay
`clamp(truncate((this.timestamp - previous.timestamp) / speed / 10), 2, 500)`
centiseconds — truncation toward zero (Rust's `as u16` cast), not rounding. -/
theorem delay_truncation_formula (speed : ℚ) (f g : RecordedFrame)
    (h0 : 0 < f.timestamp) (hle : f.timestamp ≤ g.timestamp) :
    frameDelays speed 0 [f, g] =
      some [10, rustClamp
        (rustCastU16 (((g.timestamp - f.timestamp : Nat) : ℚ) / speed / 10)) 2 500] := by
  have hg : ¬ g.timestamp < f.timestamp := by omega
  simp [frameDelays, delayFor, h0, hg]

/-- C1 witness: two records with timestamps 10 and 260 at speed 1 produce
delays 10 and 25. -/
theorem delay_truncation_formula_witness :
    frameDelays 1 0 [⟨"X", 10⟩, ⟨"Y", 260⟩] = some [10, 25] := by
  rw [delay_truncation_formula 1 ⟨"X", 10⟩ ⟨"Y", 260⟩ (by decide) (by decide)]
  norm_num [rustClamp, rustCastU16]
  decide

/-- C2 (code bug): the timestamp subtraction of the export loop is not
guarded: on a record whose timestamp is smaller than its predecessor's the
`u128` subtraction `frame.timestamp - last_timestamp` underflows (a panic,
modelled as `none`) instead of yielding the claimed clamped 2-centisecond
floor; this happens both for the bare loop and for the full export pipeline
with its enhanced intro/outro frames. -/
theorem delay_subtraction_underflows :
    frameDelays 1 0 [⟨"a", 1000⟩, ⟨"b", 500⟩] = none ∧
    export_frames 1 [⟨"a", 1000⟩, ⟨"b", 500⟩] = none := by
  constructor
  · decide
  · have h : frameDelays 1 0 (enhance_recording [⟨"a", 1000⟩, ⟨"b", 500⟩]) = none := by
      simp [enhance_recording, frameDelays, delayFor]
    simp [export_frames, h]

/-- C6: scaling a bitmap by a factor at most 1 is the identity, and scaling
by `k ≥ 2` produces a bitmap exactly `k` times taller whose rows are `k`
times wider, with output pixel `(y, x)` equal to source pixel
`(y / k, x / k)`; the source bitmap is untouched (the embedding is a pure
function of it). -/
theorem scale_bitmap_spec (b : CharBitmap) (k : Nat) :
    (k ≤ 1 → scale_bitmap b k = b) ∧
    (2 ≤ k →
      (scale_bitmap b k).length = b.length * k ∧
      (∀ y, ((scale_bitmap b k).getD y []).length = (b.getD (y / k) []).length * k) ∧
      (∀ y x, pixelAt (scale_bitmap b k) y x = pixelAt b (y / k) (x / k))) := by
  refine ⟨fun h1 => ?_, fun h2 => ⟨?_, fun y => ?_, fun y x => ?_⟩⟩
  · unfold scale_bitmap
    rw [if_pos h1]
  · exact scale_bitmap_length b k (by omega)
  · exact scale_bitmap_row_length b k (by omega) y
  · exact scale_bitmap_pixel b k (by omega) y x

/-- C6 witness: identity at factor 1, and the 2× scaling of a concrete 2×2
bitmap has the stated dimensions and pixels. -/
theorem scale_bitmap_spec_witness :
    scale_bitmap [[true, false], [false, true]] 1 = [[true, false], [false, true]] ∧
    (scale_bitmap [[true, false], [false, true]] 2).length = 2 * 2 ∧
    ((scale_bitmap [[true, false], [false, true]] 2).getD 3 []).length = 2 * 2 ∧
    pixelAt (scale_bitmap [[true, false], [false, true]] 2) 3 2 =
      pixelAt [[true, false], [false, true]] 1 1 :=
  ⟨(scale_bitmap_spec [[true, false], [false, true]] 1).1 (by decide),
   ((scale_bitmap_spec [[true, false], [false, true]] 2).2 (by decide)).1,
   ((scale_bitmap_spec [[true, false], [false, true]] 2).2 (by decide)).2.1 3,
   ((scale_bitmap_spec [[true, false], [false, true]] 2).2 (by decide)).2.2 3 2⟩


/-- C4: after any finite sequence of `process_content` calls with arbitrary
input chunks on a freshly created terminal with positive dimensions, the
cursor satisfies `cursor_x < width` and `cursor_y < height`, and the cell
matrix has exactly `height` rows of exactly `width` cells each. -/
theorem cursor_and_grid_invariant (w h : Nat) (dark : Bool) (hw : 0 < w) (hh : 0 < h)
    (chunks : List (List Char)) :
    WF (chunks.foldl process_content (VirtualTerminal.new w h dark)) := by
  have hnew : WF (VirtualTerminal.new w h dark) := by
    refine ⟨hw, hh, hw, hh, by simp [VirtualTerminal.new], ?_⟩
    intro r hr
    simp only [VirtualTerminal.new] at hr
    rw [List.eq_of_mem_replicate hr]
    simp [VirtualTerminal.new]
  exact foldl_preserve WF process_content chunks
    (fun a b hWF => processChars_WF hWF none b) _ hnew

/-- C4 witness: a concrete run mixing writes, newline, tab and an erase
sequence on a 3×2 grid satisfies the invariant. -/
theorem cursor_and_grid_invariant_witness :
    WF ([['a', '\n', '\t'], ['\x1B', '[', '2', 'J']].foldl process_content
      (VirtualTerminal.new 3 2 true)) :=
  cursor_and_grid_invariant 3 2 true (by decide) (by decide) [['a', '\n', '\t'], ['\x1B', '[', '2', 'J']]

/-- C8: a character `c` other than `[` immediately following `ESC` is
consumed and discarded together with the `ESC`: neither is written and no
grid or style state changes, and processing continues exactly at the
character after `c`. -/
theorem esc_single_follower_discarded (t : VirtualTerminal) (c : Char) (h : ¬ c = '[')
    (rest : List Char) :
    process_content t ('\x1B' :: c :: rest) = process_content t rest := by
  unfold process_content
  simp only [processChars]
  rw [if_pos trivial, if_neg h]

/-- C8 witness: `ESC Q` before ordinary text behaves exactly as the text
alone, on a fresh 2×2 terminal. -/
theorem esc_single_follower_discarded_witness :
    process_content (VirtualTerminal.new 2 2 true) ['\x1B', 'Q', 'z'] =
      process_content (VirtualTerminal.new 2 2 true) ['z'] :=
  esc_single_follower_discarded (VirtualTerminal.new 2 2 true) 'Q' (by decide) ['z']

/-- C9: a tab that lands at or past the last column wraps the cursor to
column 0 of row `(cursor_y + 1) mod height` without scrolling and leaves
every cell unchanged — on the bottom row it wraps to row 0 — whereas a
newline on the bottom row scrolls the grid up. -/
theorem tab_wrap_does_not_scroll (t : VirtualTerminal)
    (hwrap : t.width ≤ (t.cursor_x + 8) / 8 * 8) :
    process_content t ['\t'] =
      { t with cursor_x := 0, cursor_y := (t.cursor_y + 1) % t.height } ∧
    (t.cursor_y = t.height - 1 → 0 < t.height →
      (process_content t ['\t']).cursor_y = 0 ∧ (process_content t ['\t']).cells = t.cells) ∧
    (t.cursor_y = t.height - 1 → 0 < t.height →
      (process_content t ['\n']).cells =
        (scroll_up { t with cursor_x := 0, cursor_y := 0 }).cells) := by
  have htab : process_content t ['\t'] =
      { t with cursor_x := 0, cursor_y := (t.cursor_y + 1) % t.height } := by
    unfold process_content
    simp only [processChars]
    rw [if_neg (by decide), if_neg (by decide), if_neg (by decide), if_pos trivial]
    unfold tab
    dsimp only
    rw [if_pos hwrap]
  refine ⟨htab, fun hcy hh => ?_, fun hcy hh => ?_⟩
  · rw [htab]
    have hmod : t.cursor_y + 1 = t.height := by omega
    dsimp only
    rw [hmod, Nat.mod_self]
    exact ⟨rfl, rfl⟩
  · unfold process_content
    simp only [processChars]
    rw [if_neg (by decide), if_pos trivial]
    unfold newline
    dsimp only
    have hmod : t.cursor_y + 1 = t.height := by omega
    rw [hmod, Nat.mod_self]
    rw [if_pos rfl]
    try rfl

/-- C9 witness: on an 8×2 grid with the cursor on the bottom row, a tab
wraps to the origin without touching the cells, and a newline scrolls. -/
theorem tab_wrap_does_not_scroll_witness :
    process_content { VirtualTerminal.new 8 2 true with cursor_y := 1 } ['\t'] =
      { VirtualTerminal.new 8 2 true with cursor_x := 0, cursor_y := (1 + 1) % 2 } ∧
    (process_content { VirtualTerminal.new 8 2 true with cursor_y := 1 } ['\t']).cursor_y = 0 ∧
    (process_content { VirtualTerminal.new 8 2 true with cursor_y := 1 } ['\t']).cells =
      { VirtualTerminal.new 8 2 true with cursor_y := 1 }.cells := by
  have h := tab_wrap_does_not_scroll { VirtualTerminal.new 8 2 true with cursor_y := 1 }
    (by decide)
  exact ⟨h.1, (h.2.1 (by decide) (by decide)).1, (h.2.1 (by decide) (by decide)).2⟩

/-- C7: exporting an empty loaded frame sequence is a hard error with a
descriptive message, returned before any frame is rendered or written. -/
theorem export_empty_frames_is_error (speed : ℚ) :
    export_frames speed [] = some (Except.error "No frames found in recording file") := rfl

/-- C10: every cell cleared by an erase operation — here `clear_cell`
itself, the blanking of the new last row in `scroll_up`, and a full
erase-in-display (`ESC [ 2 J`) — becomes a space whose foreground and
background are the active colors at the time of clearing and whose bold,
italic and underline flags are all false, regardless of the active style
flags. -/
theorem erased_cells_take_active_style_colors (t : VirtualTerminal) (y x : Nat) (hW : WF t)
    (hy : y < t.height) (hx : x < t.width) :
    cellAt (clear_cell t y x) y x = clearedCell t ∧
    cellAt (scroll_up t) (t.height - 1) x = clearedCell t ∧
    cellAt (process_content t ['\x1B', '[', '2', 'J']) y x = clearedCell t := by
  obtain ⟨hw, hh, hcx, hcy, hlen, hrows⟩ := hW
  refine ⟨cellAt_clear_cell_self hlen hrows hy hx, ?_, ?_⟩
  · unfold scroll_up
    have hys : ∀ y2 ∈ List.range' 1 (t.height - 1), y2 < t.cells.length := by
      intro y2 hy2
      rw [List.mem_range'_1] at hy2
      omega
    obtain ⟨hslen, hsrows⟩ :=
      shift_rows_shape t.width (List.range' 1 (t.height - 1)) t.cells hrows hys
    have hWs : WF { t with cells := (List.range' 1 (t.height - 1)).foldl (fun cs y2 => cs.set (y2 - 1) (cs.getD y2 [])) t.cells } :=
      ⟨hw, hh, hcx, hcy, hslen.trans hlen, hsrows⟩
    exact foldl_clear_of_mem _ _ hWs (by dsimp only; omega) hx (List.mem_range.mpr hx)
  · have hred : process_content t ['\x1B', '[', '2', 'J'] = eraseJ t 2 := rfl
    rw [hred]
    unfold eraseJ
    rw [if_neg (by decide), if_neg (by decide), if_pos (Or.inl rfl)]
    exact rows_fold_of_mem t.width _ t ⟨hw, hh, hcx, hcy, hlen, hrows⟩ hy hx
      (List.mem_range.mpr hy) hx

/-- C10 witness: on a 2×2 terminal whose active style is bold and underline
with a non-default foreground, the cleared cells of all three operations are
spaces in the active colors with all flags off. -/
theorem erased_cells_take_active_style_colors_witness :
    cellAt (clear_cell { VirtualTerminal.new 2 2 true with current_fg := ⟨9, 8, 7⟩, bold := true, underline := true } 0 1) 0 1 =
      clearedCell { VirtualTerminal.new 2 2 true with current_fg := ⟨9, 8, 7⟩, bold := true, underline := true } ∧
    cellAt (scroll_up { VirtualTerminal.new 2 2 true with current_fg := ⟨9, 8, 7⟩, bold := true, underline := true }) (2 - 1) 1 =
      clearedCell { VirtualTerminal.new 2 2 true with current_fg := ⟨9, 8, 7⟩, bold := true, underline := true } ∧
    cellAt (process_content { VirtualTerminal.new 2 2 true with current_fg := ⟨9, 8, 7⟩, bold := true, underline := true } ['\x1B', '[', '2', 'J']) 0 1 =
      clearedCell { VirtualTerminal.new 2 2 true with current_fg := ⟨9, 8, 7⟩, bold := true, underline := true } := by
  have h := erased_cells_take_active_style_colors
    { VirtualTerminal.new 2 2 true with current_fg := ⟨9, 8, 7⟩, bold := true, underline := true }
    0 1 (by decide) (by decide) (by decide)
  exact h

/-- C3 (counterexample): the underline drawing of `render_to_image` sits
inside the `if cell.character != ' '` block, so an underlined *space* cell
is never underlined: on a 1×1 grid with an underlined space (red foreground,
blue background) at font size 8, the underline row pixel (0, 14) keeps the
background color instead of the claimed foreground color. -/
theorem underline_on_space_cell_not_painted :
    spaceUnderlineTerminal.cells =
      [[⟨' ', ⟨255, 0, 0⟩, ⟨0, 0, 255⟩, false, false, true⟩]] ∧
    render_to_image spaceUnderlineTerminal 8 0 (0 * (2 * 8) + (2 * 8 - 2)) = ⟨0, 0, 255⟩ ∧
    (⟨0, 0, 255⟩ : TermColor) ≠ ⟨255, 0, 0⟩ := by
  refine ⟨rfl, by decide, by decide⟩

/-- C3 (amended): for every grid and every underlined cell whose character
is *not* a space, rendering paints the pixel row at
`y * cell_height + cell_height - 2` — one row above the bottom of the cell
rectangle — with the cell's foreground color across the whole cell width;
an underlined space cell is left without an underline (see the
counterexample). -/
theorem underlined_nonspace_cell_row_painted (t : VirtualTerminal)
    (font_size x y px0 : Nat) (hfs : 8 ≤ font_size) (hx : x < t.width) (hy : y < t.height)
    (hpx : px0 < font_size) (hchar : (cellAt t y x).character ≠ ' ')
    (hul : (cellAt t y x).underline = true) :
    render_to_image t font_size (x * font_size + px0)
      (y * (2 * font_size) + (2 * font_size - 2)) = (cellAt t y x).fg_color :=
  render_underline_pixel t font_size x y px0 hfs hx hy hpx hchar hul

/-- C3 witness: the underlined `A` cell gets its underline row painted in
the foreground color. -/
theorem underlined_nonspace_cell_row_painted_witness :
    render_to_image underlinedLetterTerminal 8 (0 * 8 + 3) (0 * (2 * 8) + (2 * 8 - 2)) =
      (cellAt underlinedLetterTerminal 0 0).fg_color :=
  underlined_nonspace_cell_row_painted underlinedLetterTerminal 8 0 0 3 (by decide)
    (by decide) (by decide) (by decide) (by decide) (by decide)

/-- C5 (counterexample): the renderer's fallback for characters absent from
the glyph table is the `'?'` glyph, not the designated bordered-box glyph
stored under the replacement character: for `λ` the selection yields the
`'?'` bitmap, which differs from the box; and on a 1×1 grid at font size 8
the pixel (1, 4) — where the 5-wide box glyph, centered at offsets (1, 4),
has its set top-left border pixel — keeps the background color, while
pixel (3, 4) shows the `'?'` glyph painted in the foreground color. -/
theorem fallback_glyph_not_bordered_box :
    lookupBitmap (Char.ofNat 955) = none ∧
    glyphFor (Char.ofNat 955) = some questionMarkBitmap ∧
    lookupBitmap (Char.ofNat 0xFFFD) = some borderedBoxBitmap ∧
    questionMarkBitmap ≠ borderedBoxBitmap ∧
    pixelAt borderedBoxBitmap 0 0 = true ∧
    render_to_image unknownCharTerminal 8 1 4 = ⟨0, 0, 255⟩ ∧
    render_to_image unknownCharTerminal 8 3 4 = ⟨255, 0, 0⟩ := by
  refine ⟨by decide, by decide, by decide, by decide, by decide, by decide, by decide⟩

/-- C5 (amended): for every character not present in the glyph table, the
renderer's glyph selection falls back to the `'?'` (question mark) glyph;
the bordered-box glyph exists in the table under the replacement character
but is not what the fallback path uses. -/
theorem unknown_char_renders_question_mark_glyph (c : Char)
    (h : lookupBitmap c = none) : glyphFor c = some questionMarkBitmap := by
  unfold glyphFor
  rw [h]
  decide

/-- C5 witness: `λ` is not in the table and selects the `'?'` glyph. -/
theorem unknown_char_renders_question_mark_glyph_witness :
    glyphFor (Char.ofNat 955) = some questionMarkBitmap :=
  unknown_char_renders_question_mark_glyph (Char.ofNat 955) (by decide)

end Rcrd
